import Mathlib

/-!
Verification of the datalib pipeline-execution engine.

This file shallowly embeds the core of the repository's Python code:
configuration resolution (`datalib/core/config.py`), the transformation
library (`datalib/transformations/common.py`), the data-quality check
engine (`datalib/utils/validators.py`), the write-mode engine
(`datalib/io/writer.py`) and the pipeline orchestrator
(`datalib/core/pipeline.py`).  Python dicts are embedded as association
lists preserving insertion order, Python exceptions as `Except`, and the
distributed-dataframe collaborator (Spark) as explicit list-of-rows
dataframes.  Timestamps are modelled as natural-number ticks.
-/

namespace Datalib

/-- A YAML/JSON-like scalar or container value, standing in for the
dynamically-typed Python values held by configuration maps and dataframe
cells.  `vMap` preserves insertion order like a Python dict. -/
inductive Value where
  | vNull : Value
  | vBool (b : Bool) : Value
  | vInt (n : Int) : Value
  | vStr (s : String) : Value
  | vList (xs : List Value) : Value
  | vMap (kvs : List (String × Value)) : Value
  deriving Repr

mutual

/-- Structural equality test for embedded values (Python `==`). -/
def Value.beq : Value → Value → Bool
  | .vNull, .vNull => true
  | .vBool a, .vBool b => a == b
  | .vInt a, .vInt b => a == b
  | .vStr a, .vStr b => a == b
  | .vList xs, .vList ys => beqValueList xs ys
  | .vMap xs, .vMap ys => beqValuePairs xs ys
  | _, _ => false

/-- Elementwise equality of value lists. -/
def beqValueList : List Value → List Value → Bool
  | [], [] => true
  | x :: xs, y :: ys => Value.beq x y && beqValueList xs ys
  | _, _ => false

/-- Elementwise equality of key/value pair lists. -/
def beqValuePairs : List (String × Value) → List (String × Value) → Bool
  | [], [] => true
  | (k, x) :: xs, (l, y) :: ys => k == l && Value.beq x y && beqValuePairs xs ys
  | _, _ => false

end

mutual

theorem Value.beq_iff : ∀ a b : Value, Value.beq a b = true ↔ a = b
  | .vNull, b => by cases b <;> simp [Value.beq]
  | .vBool a, b => by cases b <;> simp [Value.beq]
  | .vInt a, b => by cases b <;> simp [Value.beq]
  | .vStr a, b => by cases b <;> simp [Value.beq]
  | .vList xs, b => by
      cases b <;> simp [Value.beq]
      exact beqValueList_iff xs _
  | .vMap xs, b => by
      cases b <;> simp [Value.beq]
      exact beqValuePairs_iff xs _

theorem beqValueList_iff : ∀ xs ys : List Value, beqValueList xs ys = true ↔ xs = ys
  | [], ys => by cases ys <;> simp [beqValueList]
  | x :: xs, [] => by simp [beqValueList]
  | x :: xs, y :: ys => by
      simp [beqValueList, Value.beq_iff x y, beqValueList_iff xs ys]

theorem beqValuePairs_iff :
    ∀ xs ys : List (String × Value), beqValuePairs xs ys = true ↔ xs = ys
  | [], ys => by cases ys <;> simp [beqValuePairs]
  | x :: xs, [] => by simp [beqValuePairs]
  | (k, x) :: xs, (l, y) :: ys => by
      simp [beqValuePairs, Value.beq_iff x y, beqValuePairs_iff xs ys, Prod.ext_iff,
        and_assoc]

end

instance : DecidableEq Value := fun a b =>
  decidable_of_iff (Value.beq a b = true) (Value.beq_iff a b)

/-- First-binding lookup in an association list (Python `d[k]` / `k in d`). -/
def lookupV : List (String × Value) → String → Option Value
  | [], _ => none
  | (k', v) :: rest, k => if k' = k then some v else lookupV rest k

/-- Python `d[k] = v`: update the first binding of `k` in place, or append. -/
def assignV : List (String × Value) → String → Value → List (String × Value)
  | [], k, v => [(k, v)]
  | (k', v') :: rest, k, v =>
      if k' = k then (k, v) :: rest else (k', v') :: assignV rest k v

/-- Python `del d[k]` / `df.drop`: remove every binding of `k`. -/
def eraseV (kvs : List (String × Value)) (k : String) : List (String × Value) :=
  kvs.filter (fun kv => kv.1 ≠ k)

/-- Python truthiness of an embedded value. -/
def truthy : Value → Bool
  | .vNull => false
  | .vBool b => b
  | .vInt n => n ≠ 0
  | .vStr s => s ≠ ""
  | .vList xs => ¬ xs.isEmpty
  | .vMap kvs => ¬ kvs.isEmpty

/-! ## Configuration resolver (`datalib/core/config.py`) -/

/-- Parse the tail of a `${…}` reference (the part after `"${"`), following
`ConfigLoader.ENV_PATTERN = \$\{([^}:]+)(?::([^}]*))?\}`: a nonempty run of
characters other than `}`/`:` is the variable name, optionally followed by
`:` and a default (characters other than `}`), closed by `}`.  Returns the
name, the optional default and the remaining characters, or `none` when the
pattern does not match at this position. -/
def parseRef (cs : List Char) : Option (String × Option String × List Char) :=
  let nameChars := cs.takeWhile (fun c => c ≠ '}' ∧ c ≠ ':')
  if nameChars.isEmpty then none
  else
    match cs.drop nameChars.length with
    | '}' :: rest => some (String.mk nameChars, none, rest)
    | ':' :: afterColon =>
        let defChars := afterColon.takeWhile (fun c => c ≠ '}')
        match afterColon.drop defChars.length with
        | '}' :: rest => some (String.mk nameChars, some (String.mk defChars), rest)
        | _ => none
    | _ => none

/-- The body of `replace_match` in `ConfigLoader._substitute_variables`:
widget parameters first, then the process environment, then the inline
default; otherwise `ConfigurationError`.  Errors are modelled as
`Except.error` carrying the exception message. -/
def resolveRef (widget env : List (String × String)) (name : String)
    (defaultValue : Option String) : Except String String :=
  match widget.lookup name with
  | some v => .ok v
  | none =>
      match env.lookup name with
      | some v => .ok v
      | none =>
          match defaultValue with
          | some d => .ok d
          | none =>
              .error ("Environment variable '" ++ name ++
                "' not found and no default provided")

/-- The remainder returned by `parseRef` is a strict suffix. -/
theorem parseRef_length {cs : List Char} {name d rem}
    (h : parseRef cs = some (name, d, rem)) : rem.length < cs.length + 1 := by
  simp only [parseRef] at h
  split at h
  · simp at h
  · split at h
    · rename_i heq
      obtain ⟨_, _, rfl⟩ := by simpa using h
      have := congrArg List.length heq
      simp at this
      omega
    · rename_i heq1
      split at h
      · rename_i heq2
        obtain ⟨_, _, rfl⟩ := by simpa using h
        have h1 := congrArg List.length heq1
        have h2 := congrArg List.length heq2
        simp at h1 h2
        omega
      · simp at h
    · simp at h

/-- `re.sub` of `ENV_PATTERN` over a string, as a left-to-right scan: at each
position try to match `${name}` or `${name:default}`; on a match emit the
resolution (never rescanned) and continue after the match, otherwise emit the
character and move on. -/
def scanSubst (widget env : List (String × String)) : List Char → Except String (List Char)
  | [] => .ok []
  | '$' :: '{' :: rest =>
      match h : parseRef rest with
      | some (name, defaultValue, remaining) => do
          let v ← resolveRef widget env name defaultValue
          let tail ← scanSubst widget env remaining
          return v.data ++ tail
      | none => do
          let tail ← scanSubst widget env ('{' :: rest)
          return '$' :: tail
  | c :: rest => do
      let tail ← scanSubst widget env rest
      return c :: tail
  termination_by cs => cs.length
  decreasing_by
    · have := parseRef_length h
      simp
      omega
    · simp
    · simp

/-- Variable substitution over one string scalar. -/
def substituteString (widget env : List (String × String)) (s : String) :
    Except String String :=
  (scanSubst widget env s.data).map String.mk

mutual

/-- `ConfigLoader._substitute_variables`: substitute in string scalars,
recurse into mapping values and sequence elements, pass everything else
through unchanged. -/
def substituteVariables (widget env : List (String × String)) : Value → Except String Value
  | .vStr s => (substituteString widget env s).map .vStr
  | .vMap kvs => (substitutePairs widget env kvs).map .vMap
  | .vList xs => (substituteList widget env xs).map .vList
  | v => .ok v
  termination_by v => sizeOf v

/-- The dict comprehension `{k: substitute(v) for k, v in value.items()}`. -/
def substitutePairs (widget env : List (String × String)) :
    List (String × Value) → Except String (List (String × Value))
  | [] => .ok []
  | (k, v) :: rest => do
      let v' ← substituteVariables widget env v
      let rest' ← substitutePairs widget env rest
      return (k, v') :: rest'
  termination_by kvs => sizeOf kvs

/-- The list comprehension `[substitute(item) for item in value]`. -/
def substituteList (widget env : List (String × String)) :
    List Value → Except String (List Value)
  | [] => .ok []
  | v :: rest => do
      let v' ← substituteVariables widget env v
      let rest' ← substituteList widget env rest
      return v' :: rest'
  termination_by xs => sizeOf xs

end

mutual

/-- `ConfigLoader._merge_configs`: start from a copy of `base` and fold the
`override` items in; the value written at each key is computed by
`mergeInto` from the current base value and the override value. -/
def mergeConfigs : List (String × Value) → List (String × Value) → List (String × Value)
  | result, [] => result
  | result, (k, v) :: rest =>
      mergeConfigs (assignV result k (mergeInto (lookupV result k) v)) rest
  termination_by _ o => sizeOf o

/-- The per-key rule of `_merge_configs`: when both the base slot and the
override value hold a mapping, recurse; otherwise the override value wins
outright. -/
def mergeInto : Option Value → Value → Value
  | some (.vMap m), .vMap m' => .vMap (mergeConfigs m m')
  | _, v => v
  termination_by _ v => sizeOf v

end

/-! ## Typed configuration records (`datalib/core/config.py`) -/

/-- `SourceConfig` dataclass. -/
structure SourceConfig where
  type : String
  path : Option String := none
  catalog : Option String := none
  schema : Option String := none
  table : Option String := none
  connection_string : Option String := none
  query : Option String := none
  options : List (String × Value) := []
  deriving Repr, DecidableEq

/-- `TargetConfig` dataclass. -/
structure TargetConfig where
  catalog : String
  schema : String
  table : String
  mode : String := "overwrite"
  format : String := "delta"
  partition_by : List String := []
  options : List (String × Value) := []
  merge_keys : List String := []
  scd_columns : List String := []
  deriving Repr, DecidableEq

/-- `TargetConfig.get_full_table_name`. -/
def TargetConfig.fullTableName (t : TargetConfig) : String :=
  t.catalog ++ "." ++ t.schema ++ "." ++ t.table

/-- `TransformationConfig` dataclass; `params` is the keyword-argument map
handed to the transform constructor. -/
structure TransformationConfig where
  type : String
  params : Value := .vMap []
  enabled : Bool := true

/-! ## Tabular data abstraction

The distributed dataframe collaborator is embedded as an ordered column list
plus a list of rows; a row is an association list from column name to cell
value, and a missing binding reads as SQL `NULL`. -/

/-- One dataframe row. -/
abbrev Row := List (String × Value)

/-- Embedded dataframe. -/
structure DataFrame where
  cols : List String
  rows : List Row
  deriving Repr, DecidableEq

/-- Read a cell; absent bindings are `NULL`. -/
def rowGet (r : Row) (c : String) : Value := (lookupV r c).getD .vNull

/-- `df.count()`. -/
def DataFrame.count (df : DataFrame) : Nat := df.rows.length

/-- `df.withColumn(c, expr)` where the expression reads the current row. -/
def DataFrame.withColumnCell (df : DataFrame) (c : String) (f : Row → Value) :
    DataFrame :=
  { cols := if df.cols.contains c then df.cols else df.cols ++ [c],
    rows := df.rows.map (fun r => assignV r c (f r)) }

/-- The tuple of a row's cells at the given columns (partition or ordering
key of a window). -/
def keyOf (cols : List String) (r : Row) : List Value := cols.map (rowGet r)

/-! ## Transformations (`datalib/transformations/common.py`) -/

/-- Ordering rank of each value shape, used to give the embedded cell order a
deterministic behaviour across shapes (the platform orders within a typed
column, so only the same-shape cases matter). -/
def vRank : Value → Nat
  | .vNull => 0
  | .vBool _ => 1
  | .vInt _ => 2
  | .vStr _ => 3
  | .vList _ => 4
  | .vMap _ => 5

/-- Strict cell order standing in for the platform's column ordering:
booleans, integers and strings compare naturally; shapes the platform cannot
sort compare only by shape rank. -/
def cellLt : Value → Value → Bool
  | .vBool x, .vBool y => !x && y
  | .vInt x, .vInt y => x < y
  | .vStr x, .vStr y => x < y
  | a, b => vRank a < vRank b

/-- Lexicographic strict order on window ordering keys; `desc` flips the
direction of every ordering column, exactly as `DeduplicateRows` builds its
`order_cols` with one shared flag. -/
def keyBefore (desc : Bool) : List Value → List Value → Bool
  | x :: xs, y :: ys =>
      if x = y then keyBefore desc xs ys
      else if desc then cellLt y x else cellLt x y
  | _, _ => false

/-- `df.dropDuplicates(subset)`: keep the first row of each key (an empty
subset stands for Python `None`/`[]`, i.e. all columns). -/
def dropDupsAux (key : Row → List Value) : List Row → List (List Value) → List Row
  | [], _ => []
  | r :: rest, seen =>
      if key r ∈ seen then dropDupsAux key rest seen
      else r :: dropDupsAux key rest (key r :: seen)

/-- `df.dropDuplicates(subset)`. -/
def DataFrame.dropDuplicates (df : DataFrame) (subset : List String) : DataFrame :=
  { cols := df.cols,
    rows := dropDupsAux (keyOf (if subset.isEmpty then df.cols else subset)) df.rows [] }

/-- `DeduplicateRows` transformation (an empty `subset`/`order_by` stands for
Python `None` or `[]`, both falsy). -/
structure DeduplicateRows where
  subset : List String := []
  keep : String := "first"
  order_by : List String := []
  order_desc : Bool := true

/-- `row_number()` of the row at index `i` over the window partitioned by
`partCols` and ordered by `orderCols` with direction `effDesc`: one plus the
number of partition-mates sorted strictly before it, ties broken by original
position (a deterministic stand-in for Spark's arbitrary tie order; the
claims' instances have no ties). -/
def windowRowNumber (partCols orderCols : List String) (effDesc : Bool)
    (rows : List Row) (i : Nat) (r : Row) : Nat :=
  1 + rows.enum.countP (fun jr =>
    decide (keyOf partCols jr.2 = keyOf partCols r ∧
      (keyBefore effDesc (keyOf orderCols jr.2) (keyOf orderCols r) = true ∨
        (keyOf orderCols jr.2 = keyOf orderCols r ∧ jr.1 < i))))

/-- `DeduplicateRows.transform`. -/
def DeduplicateRows.transform (t : DeduplicateRows) (df : DataFrame) : DataFrame :=
  if t.keep = "none" then df.dropDuplicates t.subset
  else if ¬ t.order_by.isEmpty ∧ (t.keep = "first" ∨ t.keep = "last") then
    let partCols := if t.subset.isEmpty then df.cols else t.subset
    -- keep == "last" reverses the per-column sort direction
    let effDesc := if t.keep = "last" then ! t.order_desc else t.order_desc
    -- withColumn("_row_num", row_number().over(window))
    let numbered := df.rows.enum.map (fun ir =>
      assignV ir.2 "_row_num"
        (.vInt (windowRowNumber partCols t.order_by effDesc df.rows ir.1 ir.2)))
    let cols' := if df.cols.contains "_row_num" then df.cols else df.cols ++ ["_row_num"]
    -- .filter(col("_row_num") == 1).drop("_row_num")
    { cols := cols'.filter (fun c => c ≠ "_row_num"),
      rows := (numbered.filter (fun r => rowGet r "_row_num" = Value.vInt 1)).map
        (fun r => eraseV r "_row_num") }
  else df.dropDuplicates t.subset

/-- `StandardizeStrings` transformation configuration. -/
structure StandardizeStrings where
  columns : List String
  trim : Bool := true
  lowercase : Bool := false
  uppercase : Bool := false
  remove_extra_spaces : Bool := false

/-- Characterwise lower-casing (extensionally `String.toLower`, written over
the character list so that it evaluates in the kernel). -/
def toLowerStr (s : String) : String := String.mk (s.data.map Char.toLower)

/-- Characterwise upper-casing (extensionally `String.toUpper`). -/
def toUpperStr (s : String) : String := String.mk (s.data.map Char.toUpper)

/-- Strip leading and trailing whitespace (extensionally `String.trim`). -/
def trimStr (s : String) : String :=
  String.mk (((s.data.dropWhile Char.isWhitespace).reverse.dropWhile
    Char.isWhitespace).reverse)

/-- `F.trim`: strip surrounding whitespace of a string cell; `NULL` stays
`NULL` (non-string cells pass through in the embedding). -/
def trimV : Value → Value
  | .vStr s => .vStr (trimStr s)
  | v => v

/-- `F.lower`. -/
def lowerV : Value → Value
  | .vStr s => .vStr (toLowerStr s)
  | v => v

/-- `F.upper`. -/
def upperV : Value → Value
  | .vStr s => .vStr (toUpperStr s)
  | v => v

/-- Replace each maximal run of whitespace with one space
(`F.regexp_replace(col, r"\s+", " ")`). -/
def collapseWs : List Char → List Char
  | [] => []
  | [c] => if c.isWhitespace then [' '] else [c]
  | c1 :: c2 :: rest =>
      if c1.isWhitespace then
        if c2.isWhitespace then collapseWs (c2 :: rest)
        else ' ' :: collapseWs (c2 :: rest)
      else c1 :: collapseWs (c2 :: rest)

/-- `F.regexp_replace(col, r"\s+", " ")` on a string cell. -/
def collapseWsV : Value → Value
  | .vStr s => .vStr (String.mk (collapseWs s.data))
  | v => v

/-- The column expression `StandardizeStrings.transform` builds for one
column: trim, then lower (or else upper), then whitespace collapse. -/
def StandardizeStrings.cellExpr (t : StandardizeStrings) (v : Value) : Value :=
  let v1 := if t.trim then trimV v else v
  let v2 := if t.lowercase then lowerV v1 else if t.uppercase then upperV v1 else v1
  if t.remove_extra_spaces then collapseWsV v2 else v2

/-- One iteration of the `StandardizeStrings.transform` column loop: skip an
absent column, otherwise rewrite it with the column expression. -/
def StandardizeStrings.step (t : StandardizeStrings) (df : DataFrame)
    (column : String) : DataFrame :=
  if ¬ df.cols.contains column then df
  else df.withColumnCell column (fun r => t.cellExpr (rowGet r column))

/-- `StandardizeStrings.transform`: apply the column expression to each
configured column that exists; skip absent columns. -/
def StandardizeStrings.transform (t : StandardizeStrings) (df : DataFrame) :
    DataFrame :=
  t.columns.foldl t.step df

/-! ## Quality check engine (`datalib/utils/validators.py`, `run_quality_checks`) -/

/-- One check configuration dictionary.  `expr` embeds the `custom` check's
SQL expression as its row predicate (`none` stands for an expression the
platform fails to parse); `threshold` is exact rational arithmetic standing
in for the Python float failure-rate threshold. -/
structure Check where
  type : String
  column : String := ""
  name : Option String := none
  min : Option Int := none
  max : Option Int := none
  pattern : String := ""
  allowed : List Value := []
  expr : Option (Row → Bool) := none
  threshold : ℚ := 0

/-- One entry of the per-check result list. -/
structure CheckResult where
  name : String
  ctype : String
  column : String
  passed : Bool
  failed_count : Nat
  message : String
  deriving Repr, DecidableEq

/-- The aggregate result dictionary of `run_quality_checks`. -/
structure QCResults where
  passed : Nat
  failed : Nat
  checks : List CheckResult
  validated_df : DataFrame
  deriving Repr

/-- Substring test standing in for `rlike` on a metacharacter-free pattern
(Java regex matching is unanchored, so a literal pattern matches iff it
occurs as a substring). -/
def strContains (pat s : String) : Bool :=
  (List.range (s.data.length + 1)).any (fun i => (s.data.drop i).take pat.data.length = pat.data)

/-- Inclusive `[min, max]` bound test on a cell, with SQL three-valued
semantics: a `NULL` (or non-integer) cell makes the comparison unknown, so
the row is not counted as failing. -/
def cellInRange (minv maxv : Option Int) : Value → Bool
  | .vInt n => (minv.all (fun m => m ≤ n)) && (maxv.all (fun m => n ≤ m))
  | _ => true

/-- The body of the per-check `try:` block: dispatch on the check's type tag
and produce (passed, failed_count, message).  `Except.error` stands for a
platform exception escaping the body, concretely an analysis error for a
column the dataframe does not have. -/
def evalCheckBody (df : DataFrame) (totalRows : Nat) (check : Check) :
    Except String (Bool × Nat × String) :=
  let requireColumn : Except String Unit :=
    if df.cols.contains check.column then .ok ()
    else .error ("cannot resolve column " ++ check.column)
  match check.type with
  | "not_null" => do
      let _ ← requireColumn
      let failedCount := df.rows.countP (fun r => rowGet r check.column = .vNull)
      return (failedCount = 0, failedCount,
        toString failedCount ++ " null values found")
  | "unique" => do
      let _ ← requireColumn
      let vals := df.rows.map (fun r => rowGet r check.column)
      let duplicateCount := vals.dedup.countP (fun v => vals.count v > 1)
      return (duplicateCount = 0, duplicateCount,
        toString duplicateCount ++ " duplicate groups found")
  | "range" => do
      let _ ← requireColumn
      let failedCount :=
        df.rows.countP (fun r => ! cellInRange check.min check.max (rowGet r check.column))
      return (failedCount = 0, failedCount, toString failedCount ++ " values out of range")
  | "regex" => do
      let _ ← requireColumn
      let failedCount := df.rows.countP (fun r =>
        match rowGet r check.column with
        | .vStr s => ! strContains check.pattern s
        | _ => false)
      return (failedCount = 0, failedCount,
        toString failedCount ++ " values don't match pattern")
  | "values" => do
      let _ ← requireColumn
      let failedCount := df.rows.countP (fun r =>
        let v := rowGet r check.column
        decide (v ≠ .vNull ∧ v ∉ check.allowed))
      return (failedCount = 0, failedCount,
        toString failedCount ++ " values not in allowed list")
  | "custom" => do
      match check.expr with
      | none => .error "cannot parse expression"
      | some p =>
          let failedCount := df.rows.countP (fun r => ! p r)
          return (failedCount = 0, failedCount,
            toString failedCount ++ " rows failed custom check")
  | "row_count" =>
      let minRows := check.min.getD 0
      let passed := minRows ≤ (totalRows : Int) && check.max.all (fun m => (totalRows : Int) ≤ m)
      return (passed, if passed then 0 else 1,
        "Row count: " ++ toString totalRows)
  | _ =>
      -- Unknown check type: zero failures, a diagnostic message, and the
      -- initial passed=False flag left in place.
      return (false, 0, "Unknown check type: " ++ check.type)

/-- One loop iteration of `run_quality_checks`: evaluate the check inside
`try:` (a caught exception marks the check failed with the exception
message), then apply the failure-rate threshold. -/
def evalOneCheck (df : DataFrame) (totalRows : Nat) (check : Check) : CheckResult :=
  let checkName := check.name.getD (check.type ++ "_" ++ check.column)
  match evalCheckBody df totalRows check with
  | .ok (passed, failedCount, message) =>
      let passed :=
        if check.threshold > 0 ∧ failedCount > 0 then
          ((failedCount : ℚ) / (totalRows : ℚ)) ≤ check.threshold
        else passed
      { name := checkName, ctype := check.type, column := check.column,
        passed := passed, failed_count := failedCount, message := message }
  | .error e =>
      { name := checkName, ctype := check.type, column := check.column,
        passed := false, failed_count := 0, message := "Check error: " ++ e }

/-- The check loop of `run_quality_checks`: bump the pass/fail counters,
escalate with `ValidationError` (the `Except.error` message) when a failed
check meets `fail_on_error`, otherwise append the result and continue. -/
def runQCAux (df : DataFrame) (totalRows : Nat) (failOnError : Bool) :
    List Check → QCResults → Except String QCResults
  | [], acc => .ok acc
  | check :: rest, acc =>
      let r := evalOneCheck df totalRows check
      if r.passed then
        runQCAux df totalRows failOnError rest
          { acc with passed := acc.passed + 1, checks := acc.checks ++ [r] }
      else if failOnError then
        .error ("Quality check failed: " ++ r.name ++ " - " ++ r.message)
      else
        runQCAux df totalRows failOnError rest
          { acc with failed := acc.failed + 1, checks := acc.checks ++ [r] }

/-- `run_quality_checks(df, checks, fail_on_error)`. -/
def runQualityChecks (df : DataFrame) (checks : List Check) (failOnError : Bool) :
    Except String QCResults :=
  runQCAux df df.count failOnError checks
    { passed := 0, failed := 0, checks := [], validated_df := df }

/-- The type tags `run_quality_checks` dispatches on. -/
def knownCheckTypes : List String :=
  ["not_null", "unique", "range", "regex", "values", "custom", "row_count"]

/-! ## Pipeline configuration record (`datalib/core/config.py`) -/

/-- `QualityConfig` dataclass. -/
structure QualityConfig where
  enabled : Bool := true
  fail_on_error : Bool := false
  checks : List Check := []

/-- `ProcessingConfig` dataclass (processing options; carried but not read by
the embedded engine). -/
structure ProcessingConfig where
  mode : String := "full"
  watermark_column : Option String := none
  options : List (String × Value) := []

/-- `PipelineConfig` dataclass fields, before `__post_init__` validation. -/
structure PipelineConfig where
  name : String
  layer : String
  description : String := ""
  version : String := "1.0.0"
  owner : String := ""
  tags : List (String × String) := []
  source : Option SourceConfig := none
  sources : List SourceConfig := []
  target : Option TargetConfig := none
  processing : ProcessingConfig := {}
  transformations : List TransformationConfig := []
  quality : QualityConfig := {}
  parameters : List (String × Value) := []

/-- `PipelineConfig.__post_init__`: reject an empty name, reject a layer
outside the enum, then synchronize the single-source and source-list
representations.  Constructing a `PipelineConfig` in Python always runs
this, so every live config is the `.ok` image of this function. -/
def PipelineConfig.postInit (cfg : PipelineConfig) : Except String PipelineConfig :=
  if cfg.name = "" then .error "Pipeline name is required"
  else if ¬ (cfg.layer = "bronze" ∨ cfg.layer = "silver" ∨ cfg.layer = "gold") then
    .error ("Invalid layer: " ++ cfg.layer ++ ". Must be bronze, silver, or gold")
  else
    match cfg.source, cfg.sources with
    | some s, [] => .ok { cfg with sources := [s] }
    | none, s :: _ => .ok { cfg with source := some s }
    | _, _ => .ok cfg

/-! ## Write-mode engine (`datalib/io/writer.py`)

The storage collaborator is a set of existing `(catalog, schema)` pairs plus
a map from fully-qualified table name to stored table.  `OPTIMIZE`/`ZORDER`
hints leave logical table contents unchanged and are not tracked.
Timestamps are `Nat` ticks supplied by the caller (`current_timestamp`). -/

/-- Durable storage state. -/
structure Storage where
  schemas : List (String × String)
  tables : List (String × DataFrame)
  deriving Repr

/-- Python dict update for the table map. -/
def assignTable : List (String × DataFrame) → String → DataFrame → List (String × DataFrame)
  | [], k, v => [(k, v)]
  | (k', v') :: rest, k, v =>
      if k' = k then (k, v) :: rest else (k', v') :: assignTable rest k v

/-- `context.table_exists(catalog, schema, table)`. -/
def Storage.tableExists (st : Storage) (name : String) : Bool :=
  (st.tables.lookup name).isSome

/-- `context.create_schema_if_not_exists` (idempotent). -/
def Storage.createSchemaIfNotExists (st : Storage) (catalog schema : String) : Storage :=
  if (catalog, schema) ∈ st.schemas then st
  else { st with schemas := st.schemas ++ [(catalog, schema)] }

/-- `saveAsTable` with overwrite semantics. -/
def Storage.saveTable (st : Storage) (name : String) (df : DataFrame) : Storage :=
  { st with tables := assignTable st.tables name df }

/-- SQL `<>` under three-valued logic: unknown (hence not satisfied) when
either side is `NULL`. -/
def sqlNeq (a b : Value) : Bool :=
  a ≠ Value.vNull && b ≠ Value.vNull && a ≠ b

/-- Key-equality merge condition `target.k = source.k AND ...`. -/
def keysMatch (keys : List String) (a b : Row) : Bool :=
  keys.all (fun k => rowGet a k = rowGet b k)

/-- The Delta `MERGE` primitive as used by `_write_merge`: matched target
rows (first matching source row) get the `updateCols` copied from source;
unmatched source rows are inserted as new rows holding exactly
`insertCols`. -/
def deltaMergeUpsert (tgt src : List Row) (keys updateCols insertCols : List String) :
    List Row :=
  (tgt.map (fun trow =>
    match src.find? (fun s => keysMatch keys s trow) with
    | some s => updateCols.foldl (fun r c => assignV r c (rowGet s c)) trow
    | none => trow)) ++
  ((src.filter (fun s => ! tgt.any (fun trow => keysMatch keys s trow))).map
    (fun s => insertCols.map (fun c => (c, rowGet s c))))

/-- A write-path outcome: the row-count result (or writer error message), the
storage state, and the `TargetConfig` object as the caller sees it after the
call (Python mutates it in place, so the writer hands it back). -/
abbrev WriteOutcome := Except String Nat × Storage × TargetConfig

/-- `DataWriter._write_overwrite`: count first, then replace the table. -/
def writeOverwrite (df : DataFrame) (target : TargetConfig) (st : Storage) :
    WriteOutcome :=
  let recordCount := df.count
  (.ok recordCount, st.saveTable target.fullTableName df, target)

/-- `DataWriter._write_append`. -/
def writeAppend (df : DataFrame) (target : TargetConfig) (st : Storage) :
    WriteOutcome :=
  let recordCount := df.count
  let name := target.fullTableName
  let newTable :=
    match st.tables.lookup name with
    | some tbl => { tbl with rows := tbl.rows ++ df.rows }
    | none => df
  (.ok recordCount, st.saveTable name newTable, target)

/-- `DataWriter._write_merge`: require merge keys, degrade to overwrite when
the target table is absent, otherwise upsert on the merge keys with every
non-key dataframe column updated and full rows inserted. -/
def writeMerge (df : DataFrame) (target : TargetConfig) (st : Storage) :
    WriteOutcome :=
  if target.merge_keys.isEmpty then
    (.error "Merge mode requires merge_keys in configuration", st, target)
  else
    let name := target.fullTableName
    match st.tables.lookup name with
    | none => writeOverwrite df target st
    | some tbl =>
        let updateCols := df.cols.filter (fun c => c ∉ target.merge_keys)
        let merged := deltaMergeUpsert tbl.rows df.rows target.merge_keys updateCols df.cols
        (.ok df.count, st.saveTable name { tbl with rows := merged }, target)

/-- `target.options.get(key, default)` for a string-valued option. -/
def optionStr (options : List (String × Value)) (key defaultValue : String) : String :=
  match lookupV options key with
  | some (.vStr s) => s
  | _ => defaultValue

/-- `DataWriter._write_scd2`: augment the source with the three SCD2 columns;
bootstrap via overwrite when the target table is absent (note this sets
`target.mode` on the caller's config object); otherwise close out changed
current rows, then append the source rows that have no current match. -/
def writeScd2 (df : DataFrame) (target : TargetConfig) (now : Nat) (st : Storage) :
    WriteOutcome :=
  if target.merge_keys.isEmpty then
    (.error "SCD2 mode requires merge_keys in configuration", st, target)
  else
    let name := target.fullTableName
    let effCol := optionStr target.options "effective_date_column" "effective_date"
    let endCol := optionStr target.options "end_date_column" "end_date"
    let curCol := optionStr target.options "current_flag_column" "is_current"
    let sourceDf :=
      ((df.withColumnCell effCol (fun _ => .vInt now)).withColumnCell
        endCol (fun _ => .vNull)).withColumnCell curCol (fun _ => .vBool true)
    match st.tables.lookup name with
    | none =>
        -- target.mode = "overwrite"  (in-place mutation of the config)
        let target := { target with mode := "overwrite" }
        writeOverwrite sourceDf target st
    | some tbl =>
        let keys := target.merge_keys
        let compareCols :=
          if target.scd_columns.isEmpty then df.cols.filter (fun c => c ∉ keys)
          else target.scd_columns
        -- Phase 1: close expired current records whose compared columns changed
        let phase1 := tbl.rows.map (fun trow =>
          if rowGet trow curCol = Value.vBool true then
            match sourceDf.rows.find? (fun s => keysMatch keys s trow) with
            | some s =>
                if compareCols.any (fun c => sqlNeq (rowGet trow c) (rowGet s c)) then
                  assignV (assignV trow endCol (.vInt now)) curCol (.vBool false)
                else trow
            | none => trow
          else trow)
        -- Phase 2: append source rows with no current match
        let existingRows := phase1.filter (fun r => rowGet r curCol = Value.vBool true)
        let newRecords := sourceDf.rows.filter (fun s =>
          ! existingRows.any (fun e => keysMatch keys s e))
        let finalRows := if newRecords.length > 0 then phase1 ++ newRecords else phase1
        (.ok df.count, st.saveTable name { tbl with rows := finalRows }, target)

/-- `DataWriter.write`: ensure the schema, dispatch on the lowered mode, and
wrap any failure with the fully-qualified target name. -/
def DataWriter.write (df : DataFrame) (target : TargetConfig) (now : Nat)
    (st : Storage) : WriteOutcome :=
  let mode := toLowerStr target.mode
  let st := st.createSchemaIfNotExists target.catalog target.schema
  let (res, st', target') :=
    if mode = "overwrite" then writeOverwrite df target st
    else if mode = "append" then writeAppend df target st
    else if mode = "merge" then writeMerge df target st
    else if mode = "scd2" then writeScd2 df target now st
    else (.error ("Unknown write mode: " ++ mode), st, target)
  match res with
  | .ok n => (.ok n, st', target')
  | .error e =>
      (.error ("Failed to write to " ++ target.fullTableName ++ ": " ++ e), st', target')

/-! ## Pipeline orchestrator (`datalib/core/pipeline.py`) -/

/-- `PipelineMetrics` dataclass (times are `Nat` ticks). -/
structure PipelineMetrics where
  pipeline_name : String
  start_time : Nat
  end_time : Option Nat := none
  status : String := "running"
  records_read : Nat := 0
  records_written : Nat := 0
  records_failed : Nat := 0
  transformations_applied : Nat := 0
  quality_checks_passed : Nat := 0
  quality_checks_failed : Nat := 0
  error_message : Option String := none
  duration_seconds : Nat := 0
  deriving Repr, DecidableEq

/-- `PipelineMetrics.complete(status, error)` at clock tick `now`. -/
def PipelineMetrics.complete (m : PipelineMetrics) (status : String)
    (error : Option String) (now : Nat) : PipelineMetrics :=
  { m with end_time := some now, status := status, error_message := error,
           duration_seconds := now - m.start_time }

/-- `PipelineExecutionError`: message plus the attached metrics snapshot. -/
structure PipelineExecutionError where
  message : String
  metrics : PipelineMetrics
  deriving Repr, DecidableEq

/-- An exception escaping the body of `Pipeline.run`'s `try:` block, tagged
by whether it is already a `PipelineExecutionError` (raised by the body
itself) or any other exception type (reader/transformation/validation/writer
errors), which the `except Exception` clause will wrap. -/
inductive BodyExc where
  | pipelineExecutionError (message : String)
  | otherExc (message : String)
  deriving Repr, DecidableEq

/-- The hosting platform collaborators of one run: the reader, the join
primitive, the transformation registry (`self._transformations`, defaults
plus any explicit registrations), and the clock. -/
structure Runtime where
  readSource : SourceConfig → Except String DataFrame
  joinFrames : DataFrame → DataFrame → List String → String → DataFrame
  registry : List (String × (Value → DataFrame → Except String DataFrame))
  startTime : Nat
  now : Nat

/-- `Pipeline._apply_transformations`: skip disabled entries, fail fast with
a `PipelineExecutionError` on an unknown type, otherwise apply and count. -/
def applyTransformations (rt : Runtime) :
    List TransformationConfig → DataFrame → PipelineMetrics →
    Except BodyExc DataFrame × PipelineMetrics
  | [], df, m => (.ok df, m)
  | tc :: rest, df, m =>
      if ¬ tc.enabled then applyTransformations rt rest df m
      else
        match rt.registry.lookup tc.type with
        | none => (.error (.pipelineExecutionError ("Unknown transformation type: " ++ tc.type)), m)
        | some f =>
            match f tc.params df with
            | .error e => (.error (.otherExc e), m)
            | .ok df' =>
                applyTransformations rt rest df'
                  { m with transformations_applied := m.transformations_applied + 1 }

/-- `Pipeline._run_quality_checks`: no-op when disabled; a `ValidationError`
escaping `run_quality_checks` is not a `PipelineExecutionError`. -/
def runQualityStep (cfg : PipelineConfig) (df : DataFrame) (m : PipelineMetrics) :
    Except BodyExc DataFrame × PipelineMetrics :=
  if ¬ cfg.quality.enabled then (.ok df, m)
  else
    match runQualityChecks df cfg.quality.checks cfg.quality.fail_on_error with
    | .error v => (.error (.otherExc v), m)
    | .ok results =>
        let m := { m with quality_checks_passed := results.passed,
                          quality_checks_failed := results.failed }
        if results.failed > 0 ∧ cfg.quality.fail_on_error then
          (.error (.pipelineExecutionError
            ("Quality checks failed: " ++ toString results.failed ++ " checks failed")), m)
        else (.ok results.validated_df, m)

/-- `Pipeline._join_sources`: join on the configured keys, or raise a
`PipelineExecutionError` when multi-source keys are missing. -/
def joinSources (rt : Runtime) (cfg : PipelineConfig) (dfs : List DataFrame) :
    Except BodyExc DataFrame :=
  match dfs with
  | [] => .error (.otherExc "no dataframes to join")
  | d :: rest =>
      if rest.isEmpty then .ok d
      else
        let joinCfg := (lookupV cfg.parameters "join").getD (.vMap [])
        let joinType :=
          match joinCfg with
          | .vMap kvs =>
              match lookupV kvs "type" with
              | some (.vStr s) => s
              | _ => "inner"
          | _ => "inner"
        let joinKeys : List String :=
          match joinCfg with
          | .vMap kvs =>
              match lookupV kvs "keys" with
              | some (.vList xs) =>
                  xs.filterMap (fun x => match x with | .vStr s => some s | _ => none)
              | _ => []
          | _ => []
        if joinKeys.isEmpty then
          .error (.pipelineExecutionError "Join keys must be specified for multi-source pipelines")
        else .ok (rest.foldl (fun acc d' => rt.joinFrames acc d' joinKeys joinType) d)

/-- The body of `Pipeline.run`'s `try:` block: read, count, transform,
validate, write, then finalize metrics as success.  Returns the outcome, the
metrics object as mutated so far (the object a raised
`PipelineExecutionError` carries), and the storage state. -/
def runBody (cfg : PipelineConfig) (rt : Runtime) (st : Storage) :
    Except BodyExc Unit × PipelineMetrics × Storage :=
  let m : PipelineMetrics := { pipeline_name := cfg.name, start_time := rt.startTime }
  let readResult : Except BodyExc DataFrame :=
    match cfg.sources with
    | [] => .error (.pipelineExecutionError "No source configured for pipeline")
    | [s] =>
        match rt.readSource s with
        | .ok df => .ok df
        | .error e => .error (.otherExc e)
    | ss =>
        match ss.mapM rt.readSource with
        | .error e => .error (.otherExc e)
        | .ok dfs => joinSources rt cfg dfs
  match readResult with
  | .error e => (.error e, m, st)
  | .ok df =>
    let m := { m with records_read := df.count }
    match applyTransformations rt cfg.transformations df m with
    | (.error e, m) => (.error e, m, st)
    | (.ok df, m) =>
      match runQualityStep cfg df m with
      | (.error e, m) => (.error e, m, st)
      | (.ok df, m) =>
        match cfg.target with
        | none => (.ok (), m.complete "success" none rt.now, st)
        | some target =>
            match DataWriter.write df target rt.now st with
            | (.error e, st', _) => (.error (.otherExc e), m, st')
            | (.ok n, st', _) =>
                let m := { m with records_written := n }
                (.ok (), m.complete "success" none rt.now, st')

/-- `Pipeline.run`: re-raise a body `PipelineExecutionError` as-is; wrap any
other exception after finalizing metrics as failed. -/
def Pipeline.run (cfg : PipelineConfig) (rt : Runtime) (st : Storage) :
    Except PipelineExecutionError PipelineMetrics × Storage :=
  match runBody cfg rt st with
  | (.ok _, m, st') => (.ok m, st')
  | (.error (.pipelineExecutionError msg), m, st') =>
      -- except PipelineExecutionError: raise   (metrics NOT finalized)
      (.error ⟨msg, m⟩, st')
  | (.error (.otherExc msg), m, st') =>
      let m := m.complete "failed" (some msg) rt.now
      (.error ⟨msg, m⟩, st')

/-! ## Helper lemmas -/

theorem lookupV_assignV_self (l : List (String × Value)) (k : String) (v : Value) :
    lookupV (assignV l k v) k = some v := by
  induction l with
  | nil => simp [assignV, lookupV]
  | cons hd tl ih =>
      obtain ⟨k', v'⟩ := hd
      by_cases h : k' = k
      · simp [assignV, lookupV, h]
      · simp [assignV, lookupV, h, ih]

theorem lookupV_assignV_ne (l : List (String × Value)) (k k' : String) (v : Value)
    (h : k' ≠ k) : lookupV (assignV l k v) k' = lookupV l k' := by
  induction l with
  | nil => simp [assignV, lookupV, Ne.symm h]
  | cons hd tl ih =>
      obtain ⟨k0, v0⟩ := hd
      by_cases h0 : k0 = k
      · subst h0
        simp [assignV, lookupV, Ne.symm h]
      · simp [assignV, lookupV, h0, ih]

theorem lookupV_eq_none_of_not_mem (l : List (String × Value)) (k : String)
    (h : k ∉ l.map Prod.fst) : lookupV l k = none := by
  induction l with
  | nil => rfl
  | cons hd tl ih =>
      obtain ⟨k', v'⟩ := hd
      simp only [List.map_cons, List.mem_cons] at h
      push_neg at h
      simp [lookupV, Ne.symm h.1, ih h.2]

theorem mergeInto_eq (ov : Option Value) (v : Value) :
    mergeInto ov v =
      match ov, v with
      | some (.vMap m), .vMap m' => .vMap (mergeConfigs m m')
      | _, _ => v := by
  cases ov with
  | none => cases v <;> simp [mergeInto]
  | some w => cases w <;> cases v <;> simp [mergeInto]

/-! ## C9 -/

/-- C9: `PipelineConfig.__post_init__` rejects an empty name with a
name-required error and an out-of-enum layer with an invalid-layer error;
on success it synchronizes the two source representations: a lone `source`
becomes the sole element of `sources`, and a lone `sources` list provides
`source` as its first element. -/
theorem C9_pipeline_config_invariants (cfg : PipelineConfig) :
    (cfg.name = "" → cfg.postInit = .error "Pipeline name is required") ∧
    (cfg.name ≠ "" →
      ¬ (cfg.layer = "bronze" ∨ cfg.layer = "silver" ∨ cfg.layer = "gold") →
      cfg.postInit =
        .error ("Invalid layer: " ++ cfg.layer ++ ". Must be bronze, silver, or gold")) ∧
    (∀ S, cfg.name ≠ "" →
      (cfg.layer = "bronze" ∨ cfg.layer = "silver" ∨ cfg.layer = "gold") →
      cfg.source = some S → cfg.sources = [] →
      cfg.postInit = .ok { cfg with sources := [S] }) ∧
    (∀ s ss, cfg.name ≠ "" →
      (cfg.layer = "bronze" ∨ cfg.layer = "silver" ∨ cfg.layer = "gold") →
      cfg.source = none → cfg.sources = s :: ss →
      cfg.postInit = .ok { cfg with source := some s }) := by
  refine ⟨?_, ?_, ?_, ?_⟩
  · intro h
    simp [PipelineConfig.postInit, h]
  · intro h hl
    simp [PipelineConfig.postInit, h, hl]
  · intro S h hl hs hss
    simp [PipelineConfig.postInit, h, hl, hs, hss]
  · intro s ss h hl hs hss
    simp [PipelineConfig.postInit, h, hl, hs, hss]

/-- Witness for C9 at the spec's concrete inputs. -/
theorem C9_witness :
    (PipelineConfig.postInit { name := "", layer := "bronze" } =
      .error "Pipeline name is required") ∧
    (PipelineConfig.postInit { name := "t", layer := "staging" } =
      .error "Invalid layer: staging. Must be bronze, silver, or gold") ∧
    (PipelineConfig.postInit
        { name := "t", layer := "bronze", source := some { type := "table" } } =
      .ok { name := "t", layer := "bronze", source := some { type := "table" },
            sources := [{ type := "table" }] }) := by
  refine ⟨(C9_pipeline_config_invariants _).1 rfl,
    (C9_pipeline_config_invariants _).2.1 (by decide) (by decide), ?_⟩
  exact (C9_pipeline_config_invariants _).2.2.1 { type := "table" } (by decide)
    (by simp) rfl rfl

/-! ## C4 -/

/-- C4: contrary to the configuration-ownership contract, an scd2-mode write
against a target table that does not yet exist mutates the caller's
`TargetConfig`: `DataWriter.write` hands back the config with
`mode = "overwrite"` although it was called with `mode = "scd2"` (the write
itself succeeds as an overwrite bootstrap). -/
theorem C4_scd2_write_mutates_target :
    (DataWriter.write
        ⟨["id", "v"], [[("id", Value.vInt 1), ("v", Value.vStr "a")]]⟩
        { catalog := "c", schema := "s", table := "t", mode := "scd2",
          merge_keys := ["id"] }
        5 ⟨[], []⟩).2.2.mode = "overwrite" ∧
    (TargetConfig.mode
      { catalog := "c", schema := "s", table := "t", mode := "scd2",
        merge_keys := ["id"] }) = "scd2" ∧
    (DataWriter.write
        ⟨["id", "v"], [[("id", Value.vInt 1), ("v", Value.vStr "a")]]⟩
        { catalog := "c", schema := "s", table := "t", mode := "scd2",
          merge_keys := ["id"] }
        5 ⟨[], []⟩).1 = .ok 1 := by
  refine ⟨?_, rfl, ?_⟩ <;> rfl

/-! ## C1 -/

/-- C1 counterexample: a check with the unknown type tag `"bogus"` records
zero failures and the diagnostic message, but it is counted as FAILED, not
passed (`passed = 0`, `failed = 1`), and with `fail_on_error` set it does
trigger escalation — refuting the claim that an unknown-type check is
treated as passed. -/
theorem C1_counterexample :
    runQualityChecks ⟨["x"], [[("x", Value.vInt 1)]]⟩
        [{ type := "bogus", column := "x" }] false =
      .ok { passed := 0, failed := 1,
            checks := [{ name := "bogus_x", ctype := "bogus", column := "x",
                         passed := false, failed_count := 0,
                         message := "Unknown check type: bogus" }],
            validated_df := ⟨["x"], [[("x", Value.vInt 1)]]⟩ } ∧
    runQualityChecks ⟨["x"], [[("x", Value.vInt 1)]]⟩
        [{ type := "bogus", column := "x" }] true =
      .error "Quality check failed: bogus_x - Unknown check type: bogus" := by
  constructor <;> rfl

/-- C1 (amended): for every dataset and every check whose type tag is not
one of not_null/unique/range/regex/values/custom/row_count, the check's
result records zero failures with the diagnostic message, but its `passed`
flag stays false: it increments the FAILED counter, and when `fail_on_error`
is set it raises the escalation `ValidationError` naming the check. -/
theorem C1_unknown_check_type_counted_failed (df : DataFrame) (c : Check)
    (h : c.type ∉ knownCheckTypes) :
    evalOneCheck df df.count c =
      { name := c.name.getD (c.type ++ "_" ++ c.column), ctype := c.type,
        column := c.column, passed := false, failed_count := 0,
        message := "Unknown check type: " ++ c.type } ∧
    runQualityChecks df [c] false =
      .ok { passed := 0, failed := 1,
            checks := [evalOneCheck df df.count c], validated_df := df } ∧
    runQualityChecks df [c] true =
      .error ("Quality check failed: " ++ c.name.getD (c.type ++ "_" ++ c.column) ++
        " - " ++ ("Unknown check type: " ++ c.type)) := by
  simp only [knownCheckTypes, List.mem_cons, List.not_mem_nil, or_false, not_or] at h
  obtain ⟨h1, h2, h3, h4, h5, h6, h7⟩ := h
  have hbody : evalCheckBody df df.count c =
      .ok (false, 0, "Unknown check type: " ++ c.type) := by
    unfold evalCheckBody
    split
    all_goals try simp_all
    all_goals rfl
  have hone : evalOneCheck df df.count c =
      { name := c.name.getD (c.type ++ "_" ++ c.column), ctype := c.type,
        column := c.column, passed := false, failed_count := 0,
        message := "Unknown check type: " ++ c.type } := by
    simp [evalOneCheck, hbody]
  have hone' := hone
  simp only [DataFrame.count] at hone'
  refine ⟨hone, ?_, ?_⟩
  · simp [runQualityChecks, runQCAux, hone', DataFrame.count]
  · simp [runQualityChecks, runQCAux, hone', DataFrame.count]

/-- Witness for C1 at the concrete unknown type `"mistyped"`. -/
theorem C1_witness :
    ({ type := "mistyped", column := "x" } : Check).type ∉ knownCheckTypes ∧
    runQualityChecks ⟨["x"], []⟩ [{ type := "mistyped", column := "x" }] false =
      .ok { passed := 0, failed := 1,
            checks := [evalOneCheck ⟨["x"], []⟩ 0 { type := "mistyped", column := "x" }],
            validated_df := ⟨["x"], []⟩ } := by
  refine ⟨by decide, ?_⟩
  exact (C1_unknown_check_type_counted_failed ⟨["x"], []⟩
    { type := "mistyped", column := "x" } (by decide)).2.1

/-! ## C6 -/

/-- Pointwise characterization of `_merge_configs` (for override maps with
distinct keys, as Python dicts are): a key of the override wins, recursively
when both sides hold a mapping there; keys absent from the override read
from the base. -/
theorem lookupV_mergeConfigs : ∀ (o b : List (String × Value)) (k : String),
    (o.map Prod.fst).Nodup →
    lookupV (mergeConfigs b o) k =
      match lookupV o k with
      | none => lookupV b k
      | some v =>
          some (match lookupV b k, v with
                | some (.vMap m), .vMap m' => .vMap (mergeConfigs m m')
                | _, _ => v)
  | [], b, k, _ => by simp [mergeConfigs, lookupV]
  | (k', v') :: tl, b, k, hnd => by
      simp only [List.map_cons, List.nodup_cons] at hnd
      obtain ⟨hk', hnd⟩ := hnd
      have hstep : mergeConfigs b ((k', v') :: tl) =
          mergeConfigs (assignV b k' (mergeInto (lookupV b k') v')) tl := by
        simp [mergeConfigs]
      rw [hstep, lookupV_mergeConfigs tl _ k hnd]
      by_cases hkk : k' = k
      · subst hkk
        have hrest : lookupV tl k' = none :=
          lookupV_eq_none_of_not_mem _ _ (by simpa using hk')
        simp only [hrest, lookupV_assignV_self, lookupV, if_pos rfl]
        rw [mergeInto_eq]
        simp
      · have hcons : lookupV ((k', v') :: tl) k = lookupV tl k := by
          simp [lookupV, hkk]
        rw [lookupV_assignV_ne _ _ _ _ (Ne.symm hkk), hcons]

/-- C6: `_merge_configs` is a right-biased deep merge: for each key of the
override, when both sides hold a nested mapping the merge recurses,
otherwise the override value replaces the base value outright; in
particular nested maps merge per-key while lists are replaced whole. -/
theorem C6_merge_configs :
    (∀ b o k, (o.map Prod.fst).Nodup →
      lookupV (mergeConfigs b o) k =
        match lookupV o k with
        | none => lookupV b k
        | some v =>
            some (match lookupV b k, v with
                  | some (.vMap m), .vMap m' => .vMap (mergeConfigs m m')
                  | _, _ => v)) ∧
    mergeConfigs [("a", Value.vMap [("x", Value.vInt 1), ("y", Value.vInt 2)])]
        [("a", Value.vMap [("x", Value.vInt 9)])] =
      [("a", Value.vMap [("x", Value.vInt 9), ("y", Value.vInt 2)])] ∧
    mergeConfigs [("a", Value.vList [Value.vInt 1, Value.vInt 2])]
        [("a", Value.vList [Value.vInt 3])] =
      [("a", Value.vList [Value.vInt 3])] := by
  refine ⟨fun b o k h => lookupV_mergeConfigs o b k h, ?_, ?_⟩
  · simp [mergeConfigs, mergeInto, lookupV, assignV]
  · simp [mergeConfigs, mergeInto, lookupV, assignV]

/-- Witness for C6 at the spec's concrete nested-map merge. -/
theorem C6_witness :
    (([("a", Value.vMap [("x", Value.vInt 9)])].map Prod.fst).Nodup ∧
      lookupV (mergeConfigs
        [("a", Value.vMap [("x", Value.vInt 1), ("y", Value.vInt 2)])]
        [("a", Value.vMap [("x", Value.vInt 9)])]) "a" =
      some (Value.vMap (mergeConfigs [("x", Value.vInt 1), ("y", Value.vInt 2)]
        [("x", Value.vInt 9)]))) := by
  refine ⟨by simp, ?_⟩
  have h := C6_merge_configs.1
    [("a", Value.vMap [("x", Value.vInt 1), ("y", Value.vInt 2)])]
    [("a", Value.vMap [("x", Value.vInt 9)])] "a" (by simp)
  rw [h]
  simp [lookupV]

/-! ## C10 -/

theorem rowGet_assignV_ne (r : Row) (c c' : String) (v : Value) (h : c' ≠ c) :
    rowGet (assignV r c v) c' = rowGet r c' := by
  unfold rowGet
  rw [lookupV_assignV_ne _ _ _ _ h]

theorem standardize_step_cols (t : StandardizeStrings) (df : DataFrame) (c : String) :
    (t.step df c).cols = df.cols := by
  unfold StandardizeStrings.step DataFrame.withColumnCell
  split
  · rfl
  · simp_all

theorem standardize_foldl_cols (t : StandardizeStrings) :
    ∀ (cs : List String) (df : DataFrame), (cs.foldl t.step df).cols = df.cols
  | [], _ => rfl
  | c :: cs, df => by
      rw [List.foldl_cons, standardize_foldl_cols t cs, standardize_step_cols]

theorem standardize_foldl_other_cols (t : StandardizeStrings) :
    ∀ (cs : List String) (df : DataFrame) (c' : String),
    (c' ∉ cs ∨ df.cols.contains c' = false) →
    (cs.foldl t.step df).rows.map (fun r => rowGet r c') =
      df.rows.map (fun r => rowGet r c')
  | [], _, _, _ => rfl
  | c :: cs, df, c', h => by
      rw [List.foldl_cons]
      have hone : (t.step df c).rows.map (fun r => rowGet r c') =
          df.rows.map (fun r => rowGet r c') := by
        by_cases hc : df.cols.contains c
        · have hne : c' ≠ c := by
            rcases h with h | h
            · intro hh
              exact h (by simp [hh])
            · intro hh
              rw [hh] at h
              rw [h] at hc
              exact absurd hc (by simp)
          unfold StandardizeStrings.step DataFrame.withColumnCell
          rw [if_neg (by simpa using hc)]
          simp [rowGet_assignV_ne _ _ _ _ hne]
        · unfold StandardizeStrings.step
          rw [if_pos (by simpa using hc)]
      have hrec := standardize_foldl_other_cols t cs (t.step df c) c'
        (by rcases h with h | h
            · exact Or.inl (fun hh => h (List.mem_cons_of_mem _ hh))
            · exact Or.inr (by rw [standardize_step_cols]; exact h))
      rw [hrec, hone]

/-- C10: when both `lowercase` and `uppercase` are set, `StandardizeStrings`
behaves exactly as if `uppercase` were off — each configured column present
in the dataset is lower-cased only; the column set is unchanged, and every
column that is not configured (or not present) keeps all its cell values. -/
theorem C10_standardize_lowercase_wins (cols : List String) (tr res : Bool)
    (df : DataFrame) :
    (StandardizeStrings.transform
        { columns := cols, trim := tr, lowercase := true, uppercase := true,
          remove_extra_spaces := res } df =
      StandardizeStrings.transform
        { columns := cols, trim := tr, lowercase := true, uppercase := false,
          remove_extra_spaces := res } df) ∧
    (StandardizeStrings.transform
        { columns := cols, trim := tr, lowercase := true, uppercase := true,
          remove_extra_spaces := res } df).cols = df.cols ∧
    (∀ c', (c' ∉ cols ∨ df.cols.contains c' = false) →
      (StandardizeStrings.transform
          { columns := cols, trim := tr, lowercase := true, uppercase := true,
            remove_extra_spaces := res } df).rows.map (fun r => rowGet r c') =
        df.rows.map (fun r => rowGet r c')) := by
  have hstep : StandardizeStrings.step
      { columns := cols, trim := tr, lowercase := true, uppercase := true,
        remove_extra_spaces := res } =
      StandardizeStrings.step
      { columns := cols, trim := tr, lowercase := true, uppercase := false,
        remove_extra_spaces := res } := by
    funext df c
    simp [StandardizeStrings.step, StandardizeStrings.cellExpr]
  refine ⟨?_, ?_, ?_⟩
  · unfold StandardizeStrings.transform
    rw [hstep]
  · exact standardize_foldl_cols _ cols df
  · intro c' h
    exact standardize_foldl_other_cols _ cols df c' h

/-- Witness for C10: a concrete frame where the unconfigured column is
untouched. -/
theorem C10_witness :
    (("other" : String) ∉ (["name"] : List String) ∨
      (DataFrame.cols ⟨["name", "other"], [[("name", Value.vStr "A"),
        ("other", Value.vStr "B")]]⟩).contains "other" = false) ∧
    (StandardizeStrings.transform
        { columns := ["name"], trim := true, lowercase := true, uppercase := true,
          remove_extra_spaces := false }
        ⟨["name", "other"], [[("name", Value.vStr "A"), ("other", Value.vStr "B")]]⟩).rows.map
      (fun r => rowGet r "other") =
      [[("name", Value.vStr "A"), ("other", Value.vStr "B")]].map
        (fun r => rowGet r "other") := by
  refine ⟨Or.inl (by decide), ?_⟩
  exact (C10_standardize_lowercase_wins ["name"] true false
    ⟨["name", "other"], [[("name", Value.vStr "A"), ("other", Value.vStr "B")]]⟩).2.2
    "other" (Or.inl (by decide))

/-! ## C7 -/

theorem runQCAux_append (df : DataFrame) (total : Nat) (foe : Bool) :
    ∀ (xs ys : List Check) (acc : QCResults),
    runQCAux df total foe (xs ++ ys) acc =
      (runQCAux df total foe xs acc).bind (fun acc' => runQCAux df total foe ys acc')
  | [], ys, acc => by simp [runQCAux, Except.bind]
  | c :: xs, ys, acc => by
      simp only [List.cons_append, runQCAux]
      split
      · exact runQCAux_append df total foe xs ys _
      · split
        · rfl
        · exact runQCAux_append df total foe xs ys _

theorem runQCAux_false_spec (df : DataFrame) (total : Nat) :
    ∀ (xs : List Check) (acc : QCResults),
    runQCAux df total false xs acc =
      .ok { passed := acc.passed + xs.countP (fun c => (evalOneCheck df total c).passed),
            failed := acc.failed + xs.countP (fun c => ! (evalOneCheck df total c).passed),
            checks := acc.checks ++ xs.map (evalOneCheck df total),
            validated_df := acc.validated_df }
  | [], acc => by simp [runQCAux]
  | c :: xs, acc => by
      simp only [runQCAux, Bool.false_eq_true, if_false]
      by_cases hp : (evalOneCheck df total c).passed
      · rw [if_pos hp, runQCAux_false_spec df total xs]
        simp [List.countP_cons, hp]
        omega
      · rw [if_neg hp, runQCAux_false_spec df total xs]
        simp only [Bool.not_eq_true] at hp
        simp [List.countP_cons, hp]
        omega

/-- C7: (exception isolation) with `fail_on_error` off, `run_quality_checks`
never raises and records one result per check in order; a check whose body
raises an exception is marked failed with `failed_count = 0` and the message
`"Check error: <exception>"`, and the remaining checks are still evaluated.
(escalation) with `fail_on_error` on, as soon as a check comes out failed a
`ValidationError` carrying that check's name and message is raised, and the
checks after it contribute nothing to the outcome. -/
theorem C7_quality_isolation_and_escalation (df : DataFrame) :
    (∀ checks : List Check,
      runQualityChecks df checks false =
        .ok { passed := checks.countP (fun c => (evalOneCheck df df.count c).passed),
              failed := checks.countP (fun c => ! (evalOneCheck df df.count c).passed),
              checks := checks.map (evalOneCheck df df.count),
              validated_df := df }) ∧
    (∀ (c : Check) (e : String), evalCheckBody df df.count c = .error e →
      evalOneCheck df df.count c =
        { name := c.name.getD (c.type ++ "_" ++ c.column), ctype := c.type,
          column := c.column, passed := false, failed_count := 0,
          message := "Check error: " ++ e }) ∧
    (∀ (pre : List Check) (c : Check) (post post' : List Check) (r0 : QCResults),
      runQualityChecks df pre true = .ok r0 →
      (evalOneCheck df df.count c).passed = false →
      runQualityChecks df (pre ++ c :: post) true =
          .error ("Quality check failed: " ++ (evalOneCheck df df.count c).name ++
            " - " ++ (evalOneCheck df df.count c).message) ∧
        runQualityChecks df (pre ++ c :: post) true =
          runQualityChecks df (pre ++ c :: post') true) := by
  refine ⟨?_, ?_, ?_⟩
  · intro checks
    unfold runQualityChecks
    rw [runQCAux_false_spec]
    simp
  · intro c e he
    simp [evalOneCheck, he]
  · intro pre c post post' r0 h0 hf
    have key : ∀ post'' : List Check,
        runQualityChecks df (pre ++ c :: post'') true =
          .error ("Quality check failed: " ++ (evalOneCheck df df.count c).name ++
            " - " ++ (evalOneCheck df df.count c).message) := by
      intro post''
      unfold runQualityChecks at h0 ⊢
      rw [runQCAux_append, h0]
      simp only [Except.bind, runQCAux, hf]
      simp
    exact ⟨key post, by rw [key post, key post']⟩

/-- Witness for C7: a `not_null` check against a missing column raises, is
recorded as failed with the exception message while the following check
still runs; with `fail_on_error` the batch stops at the bad check. -/
theorem C7_witness :
    evalCheckBody ⟨["x"], [[("x", Value.vInt 1)]]⟩ 1
        { type := "not_null", column := "ghost" } =
      .error "cannot resolve column ghost" ∧
    evalOneCheck ⟨["x"], [[("x", Value.vInt 1)]]⟩ 1
        { type := "not_null", column := "ghost" } =
      { name := "not_null_ghost", ctype := "not_null", column := "ghost",
        passed := false, failed_count := 0,
        message := "Check error: cannot resolve column ghost" } ∧
    runQualityChecks ⟨["x"], [[("x", Value.vInt 1)]]⟩
        [{ type := "not_null", column := "ghost" },
         { type := "not_null", column := "x" }] false =
      .ok { passed := 1, failed := 1,
            checks := [evalOneCheck ⟨["x"], [[("x", Value.vInt 1)]]⟩ 1
                        { type := "not_null", column := "ghost" },
                       evalOneCheck ⟨["x"], [[("x", Value.vInt 1)]]⟩ 1
                        { type := "not_null", column := "x" }],
            validated_df := ⟨["x"], [[("x", Value.vInt 1)]]⟩ } ∧
    runQualityChecks ⟨["x"], [[("x", Value.vInt 1)]]⟩
        [{ type := "not_null", column := "ghost" },
         { type := "not_null", column := "x" }] true =
      .error ("Quality check failed: " ++ "not_null_ghost" ++ " - " ++
        "Check error: cannot resolve column ghost") := by
  have h2 := (C7_quality_isolation_and_escalation
    ⟨["x"], [[("x", Value.vInt 1)]]⟩).2.1
    { type := "not_null", column := "ghost" } "cannot resolve column ghost" (by rfl)
  have h3 := (C7_quality_isolation_and_escalation
    ⟨["x"], [[("x", Value.vInt 1)]]⟩).1
    [{ type := "not_null", column := "ghost" }, { type := "not_null", column := "x" }]
  have h4 := ((C7_quality_isolation_and_escalation
    ⟨["x"], [[("x", Value.vInt 1)]]⟩).2.2
    [] { type := "not_null", column := "ghost" }
    [{ type := "not_null", column := "x" }] []
    { passed := 0, failed := 0, checks := [], validated_df := ⟨["x"], [[("x", Value.vInt 1)]]⟩ }
    (by rfl) (by rfl)).1
  simp only [List.nil_append] at h4
  refine ⟨by rfl, ?_, ?_, ?_⟩
  · simpa using h2
  · rw [h3]
    rfl
  · rw [h4]
    rfl

/-! ## C8 -/

/-- C8: a merge-mode write with an empty merge-key list fails with a writer
error naming the target; with a non-empty key list and an absent target
table it degrades to overwrite semantics (the table becomes the source
dataset) and returns the source row count; with the table present it
upserts: every non-key dataframe column of matched rows is updated from
source and non-matching source rows are inserted in full. -/
theorem C8_write_merge (df : DataFrame) (target : TargetConfig) (st : Storage)
    (now : Nat) (hm : target.mode = "merge") :
    (target.merge_keys = [] →
      DataWriter.write df target now st =
        (.error ("Failed to write to " ++ target.fullTableName ++
            ": " ++ "Merge mode requires merge_keys in configuration"),
          st.createSchemaIfNotExists target.catalog target.schema, target)) ∧
    (target.merge_keys ≠ [] →
      st.tables.lookup target.fullTableName = none →
      DataWriter.write df target now st =
        (.ok df.count,
          (st.createSchemaIfNotExists target.catalog target.schema).saveTable
            target.fullTableName df,
          target)) ∧
    (∀ tbl, target.merge_keys ≠ [] →
      st.tables.lookup target.fullTableName = some tbl →
      DataWriter.write df target now st =
        (.ok df.count,
          (st.createSchemaIfNotExists target.catalog target.schema).saveTable
            target.fullTableName
            { tbl with rows := (deltaMergeUpsert tbl.rows df.rows target.merge_keys
                (df.cols.filter (fun c => c ∉ target.merge_keys)) df.cols) },
          target)) := by
  have hmode : toLowerStr target.mode = "merge" := by rw [hm]; decide
  have hno : ("merge" : String) ≠ "overwrite" := by decide
  have hna : ("merge" : String) ≠ "append" := by decide
  have hschemas : ∀ (s : Storage) (c sc : String),
      (s.createSchemaIfNotExists c sc).tables = s.tables := by
    intro s c sc
    unfold Storage.createSchemaIfNotExists
    split <;> rfl
  refine ⟨?_, ?_, ?_⟩
  · intro hk
    simp only [DataWriter.write, hmode, if_neg hno, if_neg hna, if_pos rfl,
      writeMerge, hk, List.isEmpty_nil, if_pos rfl]
    simp
  · intro hk hlook
    simp only [DataWriter.write, hmode, if_neg hno, if_neg hna, if_pos rfl,
      writeMerge, List.isEmpty_eq_true, if_neg hk, hschemas, hlook,
      writeOverwrite]
    simp [DataFrame.count]
  · intro tbl hk hlook
    simp only [DataWriter.write, hmode, if_neg hno, if_neg hna, if_pos rfl,
      writeMerge, List.isEmpty_eq_true, if_neg hk, hschemas, hlook]
    simp

/-- Witness for C8: the bootstrap branch at a concrete empty storage, and
the upsert branch at a one-row table — kept rows are updated from source on
non-key columns, new source keys are inserted in full. -/
theorem C8_witness :
    DataWriter.write ⟨["id", "v"], [[("id", Value.vInt 1), ("v", Value.vStr "a")]]⟩
        { catalog := "c", schema := "s", table := "t", mode := "merge",
          merge_keys := ["id"] } 0 ⟨[], []⟩ =
      (.ok 1,
        (Storage.createSchemaIfNotExists ⟨[], []⟩ "c" "s").saveTable "c.s.t"
          ⟨["id", "v"], [[("id", Value.vInt 1), ("v", Value.vStr "a")]]⟩,
        { catalog := "c", schema := "s", table := "t", mode := "merge",
          merge_keys := ["id"] }) ∧
    deltaMergeUpsert
        [[("id", Value.vInt 1), ("v", Value.vStr "old")],
         [("id", Value.vInt 2), ("v", Value.vStr "keep")]]
        [[("id", Value.vInt 1), ("v", Value.vStr "new")],
         [("id", Value.vInt 3), ("v", Value.vStr "ins")]]
        ["id"] ["v"] ["id", "v"] =
      [[("id", Value.vInt 1), ("v", Value.vStr "new")],
       [("id", Value.vInt 2), ("v", Value.vStr "keep")],
       [("id", Value.vInt 3), ("v", Value.vStr "ins")]] := by
  constructor
  · have h := (C8_write_merge
      ⟨["id", "v"], [[("id", Value.vInt 1), ("v", Value.vStr "a")]]⟩
      { catalog := "c", schema := "s", table := "t", mode := "merge",
        merge_keys := ["id"] } ⟨[], []⟩ 0 rfl).2.1 (by decide) (by rfl)
    simpa using h
  · rfl

/-! ## C2 -/

/-- C2 counterexample: a pipeline with no configured source (a legitimately
constructed config) makes the body raise `PipelineExecutionError` directly;
`run` re-raises it without finalizing the metrics, so the metrics attached
to the raised error still have status `"running"` — refuting the claim that
every raised `PipelineExecutionError` carries terminal metrics. -/
theorem C2_counterexample :
    PipelineConfig.postInit { name := "t", layer := "bronze" } =
      .ok { name := "t", layer := "bronze" } ∧
    (Pipeline.run { name := "t", layer := "bronze" }
        { readSource := fun _ => .ok ⟨[], []⟩, joinFrames := fun a _ _ _ => a,
          registry := [], startTime := 0, now := 5 } ⟨[], []⟩).1 =
      .error { message := "No source configured for pipeline",
               metrics := { pipeline_name := "t", start_time := 0 } } ∧
    PipelineMetrics.status { pipeline_name := "t", start_time := 0 } = "running" := by
  refine ⟨rfl, rfl, rfl⟩

/-- C2 (amended): every exception escaping `Pipeline.run` is a
`PipelineExecutionError`; when the body's exception was NOT itself a
`PipelineExecutionError`, `run` finalizes the metrics with status
`"failed"`, the error message and an end time/duration before wrapping and
re-raising — but a `PipelineExecutionError` raised inside the body is
re-raised with its metrics snapshot untouched (possibly still
`"running"`). -/
theorem C2_run_error_flow (cfg : PipelineConfig) (rt : Runtime) (st : Storage) :
    (∀ msg, (runBody cfg rt st).1 = .error (.otherExc msg) →
      Pipeline.run cfg rt st =
        (.error { message := msg,
                  metrics := ((runBody cfg rt st).2.1.complete "failed" (some msg) rt.now) },
         (runBody cfg rt st).2.2) ∧
      ((runBody cfg rt st).2.1.complete "failed" (some msg) rt.now).status = "failed" ∧
      ((runBody cfg rt st).2.1.complete "failed" (some msg) rt.now).error_message = some msg ∧
      ((runBody cfg rt st).2.1.complete "failed" (some msg) rt.now).end_time = some rt.now ∧
      ((runBody cfg rt st).2.1.complete "failed" (some msg) rt.now).duration_seconds =
        rt.now - (runBody cfg rt st).2.1.start_time) ∧
    (∀ msg, (runBody cfg rt st).1 = .error (.pipelineExecutionError msg) →
      Pipeline.run cfg rt st =
        (.error { message := msg, metrics := (runBody cfg rt st).2.1 },
         (runBody cfg rt st).2.2)) := by
  constructor
  · intro msg h
    rcases hb : runBody cfg rt st with ⟨r, m, st'⟩
    rw [hb] at h
    simp at h
    subst h
    refine ⟨?_, rfl, rfl, rfl, rfl⟩
    unfold Pipeline.run
    rw [hb]
  · intro msg h
    rcases hb : runBody cfg rt st with ⟨r, m, st'⟩
    rw [hb] at h
    simp at h
    subst h
    unfold Pipeline.run
    rw [hb]

/-- Witness for C2: a reader failure (not a `PipelineExecutionError`) is
wrapped and its metrics are finalized as failed with end time and
duration. -/
theorem C2_witness :
    (runBody { name := "t", layer := "bronze", sources := [{ type := "table" }] }
        { readSource := fun _ => .error "boom", joinFrames := fun a _ _ _ => a,
          registry := [], startTime := 2, now := 5 } ⟨[], []⟩).1 =
      .error (.otherExc "boom") ∧
    Pipeline.run { name := "t", layer := "bronze", sources := [{ type := "table" }] }
        { readSource := fun _ => .error "boom", joinFrames := fun a _ _ _ => a,
          registry := [], startTime := 2, now := 5 } ⟨[], []⟩ =
      (.error { message := "boom",
                metrics := ((runBody
                    { name := "t", layer := "bronze", sources := [{ type := "table" }] }
                    { readSource := fun _ => .error "boom", joinFrames := fun a _ _ _ => a,
                      registry := [], startTime := 2, now := 5 }
                    ⟨[], []⟩).2.1.complete "failed" (some "boom") 5) },
       (runBody { name := "t", layer := "bronze", sources := [{ type := "table" }] }
          { readSource := fun _ => .error "boom", joinFrames := fun a _ _ _ => a,
            registry := [], startTime := 2, now := 5 } ⟨[], []⟩).2.2) ∧
    ((runBody { name := "t", layer := "bronze", sources := [{ type := "table" }] }
        { readSource := fun _ => .error "boom", joinFrames := fun a _ _ _ => a,
          registry := [], startTime := 2, now := 5 }
        ⟨[], []⟩).2.1.complete "failed" (some "boom") 5).status = "failed" := by
  refine ⟨rfl, ?_, ?_⟩
  · exact ((C2_run_error_flow
      { name := "t", layer := "bronze", sources := [{ type := "table" }] }
      { readSource := fun _ => .error "boom", joinFrames := fun a _ _ _ => a,
        registry := [], startTime := 2, now := 5 } ⟨[], []⟩).1 "boom" rfl).1
  · exact ((C2_run_error_flow
      { name := "t", layer := "bronze", sources := [{ type := "table" }] }
      { readSource := fun _ => .error "boom", joinFrames := fun a _ _ _ => a,
        registry := [], startTime := 2, now := 5 } ⟨[], []⟩).1 "boom" rfl).2.1

/-! ## C5 -/

theorem takeWhile_append_stop {α} (p : α → Bool) :
    ∀ (xs : List α), (∀ x ∈ xs, p x = true) → ∀ (y : α), p y = false → ∀ rest,
    (xs ++ y :: rest).takeWhile p = xs
  | [], _, y, hy, rest => by simp [List.takeWhile_cons, hy]
  | x :: xs, h, y, hy, rest => by
      have hx := h x (by simp)
      simp [List.takeWhile_cons, hx,
        takeWhile_append_stop p xs (fun a ha => h a (by simp [ha])) y hy rest]

theorem parseRef_no_default (nc rest : List Char) (hne : nc ≠ [])
    (hgood : ∀ c ∈ nc, c ≠ '}' ∧ c ≠ ':') :
    parseRef (nc ++ '}' :: rest) = some (String.mk nc, none, rest) := by
  have htw : (nc ++ '}' :: rest).takeWhile (fun c => c ≠ '}' ∧ c ≠ ':') = nc :=
    takeWhile_append_stop _ nc (fun c hc => by simpa using hgood c hc) '}' (by simp) rest
  simp only [parseRef, htw, List.isEmpty_eq_true, hne, if_neg]
  rw [List.drop_left]
  simp

theorem parseRef_with_default (nc dc rest : List Char) (hne : nc ≠ [])
    (hgood : ∀ c ∈ nc, c ≠ '}' ∧ c ≠ ':') (hd : ∀ c ∈ dc, c ≠ '}') :
    parseRef (nc ++ ':' :: (dc ++ '}' :: rest)) =
      some (String.mk nc, some (String.mk dc), rest) := by
  have htw : (nc ++ ':' :: (dc ++ '}' :: rest)).takeWhile
      (fun c => c ≠ '}' ∧ c ≠ ':') = nc :=
    takeWhile_append_stop _ nc (fun c hc => by simpa using hgood c hc) ':' (by simp) _
  have htw2 : (dc ++ '}' :: rest).takeWhile (fun c => c ≠ '}') = dc :=
    takeWhile_append_stop _ dc (fun c hc => by simpa using hd c hc) '}' (by simp) rest
  simp only [parseRef, htw, List.isEmpty_eq_true, hne, if_neg, List.drop_left]
  simp only [htw2, List.drop_left]
  simp

theorem scanSubst_single_ref (w env : List (String × String)) (cs : List Char)
    (n : String) (d : Option String) (h : parseRef cs = some (n, d, [])) :
    scanSubst w env ('$' :: '{' :: cs) =
      match resolveRef w env n d with
      | .ok v => .ok v.data
      | .error e => .error e := by
  rw [scanSubst]
  split
  · rename_i name defv rem heq
    rw [h] at heq
    simp only [Option.some.injEq, Prod.mk.injEq] at heq
    obtain ⟨rfl, rfl, rfl⟩ := heq
    cases hr : resolveRef w env n d with
    | ok v =>
        simp [scanSubst, Except.bind, Bind.bind]
        rfl
    | error e => rfl
  · rename_i heq
    rw [h] at heq
    exact absurd heq (by simp)

/-- C5: variable substitution resolves a reference in strict precedence
order — the widget parameter map first, then the process environment, then
the inline default: for a `${NAME:default}` reference a widget binding wins
over both the environment and the default, an environment binding wins over
the default, and the default is used only when neither map resolves `NAME`;
a bare `${NAME}` reference that neither map resolves raises
`ConfigurationError` naming the variable.  Substitution recurses into
mapping values and sequence elements, and non-string scalars pass through
unchanged. -/
theorem C5_substitution_precedence (w env : List (String × String))
    (nc : List Char) (hne : nc ≠ []) (hgood : ∀ c ∈ nc, c ≠ '}' ∧ c ≠ ':') :
    (∀ v, w.lookup (String.mk nc) = some v →
      substituteVariables w env (.vStr (String.mk ('$' :: '{' :: nc ++ ['}']))) =
        .ok (.vStr v)) ∧
    (∀ v, w.lookup (String.mk nc) = none → env.lookup (String.mk nc) = some v →
      substituteVariables w env (.vStr (String.mk ('$' :: '{' :: nc ++ ['}']))) =
        .ok (.vStr v)) ∧
    (∀ v dc, (∀ c ∈ dc, c ≠ '}') → w.lookup (String.mk nc) = some v →
      substituteVariables w env
          (.vStr (String.mk ('$' :: '{' :: nc ++ ':' :: (dc ++ ['}'])))) =
        .ok (.vStr v)) ∧
    (∀ v dc, (∀ c ∈ dc, c ≠ '}') →
      w.lookup (String.mk nc) = none → env.lookup (String.mk nc) = some v →
      substituteVariables w env
          (.vStr (String.mk ('$' :: '{' :: nc ++ ':' :: (dc ++ ['}'])))) =
        .ok (.vStr v)) ∧
    (∀ dc, (∀ c ∈ dc, c ≠ '}') →
      w.lookup (String.mk nc) = none → env.lookup (String.mk nc) = none →
      substituteVariables w env
          (.vStr (String.mk ('$' :: '{' :: nc ++ ':' :: (dc ++ ['}'])))) =
        .ok (.vStr (String.mk dc))) ∧
    (w.lookup (String.mk nc) = none → env.lookup (String.mk nc) = none →
      substituteVariables w env (.vStr (String.mk ('$' :: '{' :: nc ++ ['}']))) =
        .error ("Environment variable '" ++ String.mk nc ++
          "' not found and no default provided")) ∧
    (∀ k x v', substituteVariables w env x = .ok v' →
      substituteVariables w env (.vMap [(k, x)]) = .ok (.vMap [(k, v')])) ∧
    (∀ x v', substituteVariables w env x = .ok v' →
      substituteVariables w env (.vList [x]) = .ok (.vList [v'])) ∧
    (∀ n, substituteVariables w env (.vInt n) = .ok (.vInt n)) ∧
    (∀ b, substituteVariables w env (.vBool b) = .ok (.vBool b)) ∧
    substituteVariables w env .vNull = .ok .vNull := by
  have hstr : ∀ (res : Except String (List Char)),
      scanSubst w env ('$' :: '{' :: nc ++ ['}']) = res →
      True := fun _ _ => trivial
  have hscan : scanSubst w env ('$' :: '{' :: (nc ++ ['}'])) =
      match resolveRef w env (String.mk nc) none with
      | .ok v => .ok v.data
      | .error e => .error e :=
    scanSubst_single_ref w env _ _ _ (parseRef_no_default nc [] hne hgood)
  have hscanD : ∀ dc, (∀ c ∈ dc, c ≠ '}') →
      scanSubst w env ('$' :: '{' :: (nc ++ ':' :: (dc ++ ['}']))) =
        match resolveRef w env (String.mk nc) (some (String.mk dc)) with
        | .ok v => .ok v.data
        | .error e => .error e := fun dc hd =>
    scanSubst_single_ref w env _ _ _ (parseRef_with_default nc dc [] hne hgood hd)
  refine ⟨?_, ?_, ?_, ?_, ?_, ?_, ?_, ?_, ?_, ?_, ?_⟩
  · intro v hw
    simp [substituteVariables, substituteString, hscan, resolveRef, hw, Except.map]
  · intro v hw henv
    simp [substituteVariables, substituteString, hscan, resolveRef, hw, henv,
      Except.map]
  · intro v dc hd hw
    simp [substituteVariables, substituteString, hscanD dc hd, resolveRef, hw,
      Except.map]
  · intro v dc hd hw henv
    simp [substituteVariables, substituteString, hscanD dc hd, resolveRef, hw, henv,
      Except.map]
  · intro dc hd hw henv
    simp [substituteVariables, substituteString, hscanD dc hd, resolveRef, hw, henv,
      Except.map]
  · intro hw henv
    simp [substituteVariables, substituteString, hscan, resolveRef, hw, henv,
      Except.map]
  · intro k x v' hx
    simp [substituteVariables, substitutePairs, hx]
    rfl
  · intro x v' hx
    simp [substituteVariables, substituteList, hx]
    rfl
  · intro n
    simp [substituteVariables]
  · intro b
    simp [substituteVariables]
  · simp [substituteVariables]

/-- Witness for C5: widget parameters beat the environment and beat an
inline default, the environment beats the default, the default is used
last, and a bare unresolvable reference errors. -/
theorem C5_witness :
    substituteVariables [("A", "w")] [("A", "e"), ("B", "e2")]
        (.vStr (String.mk ('$' :: '{' :: ['A'] ++ ['}']))) = .ok (.vStr "w") ∧
    substituteVariables [("A", "w")] [("A", "e"), ("B", "e2")]
        (.vStr (String.mk ('$' :: '{' :: ['B'] ++ ['}']))) = .ok (.vStr "e2") ∧
    substituteVariables [("A", "w")] [("A", "e"), ("B", "e2")]
        (.vStr (String.mk ('$' :: '{' :: ['A'] ++ ':' :: (['d'] ++ ['}'])))) =
      .ok (.vStr "w") ∧
    substituteVariables [("A", "w")] [("A", "e"), ("B", "e2")]
        (.vStr (String.mk ('$' :: '{' :: ['B'] ++ ':' :: (['d'] ++ ['}'])))) =
      .ok (.vStr "e2") ∧
    substituteVariables [("A", "w")] [("A", "e"), ("B", "e2")]
        (.vStr (String.mk ('$' :: '{' :: ['C'] ++ ':' :: (['d'] ++ ['}'])))) =
      .ok (.vStr (String.mk ['d'])) ∧
    substituteVariables [("A", "w")] [("A", "e"), ("B", "e2")]
        (.vStr (String.mk ('$' :: '{' :: ['C'] ++ ['}']))) =
      .error ("Environment variable '" ++ String.mk ['C'] ++
        "' not found and no default provided") := by
  refine ⟨?_, ?_, ?_, ?_, ?_, ?_⟩
  · exact (C5_substitution_precedence [("A", "w")] [("A", "e"), ("B", "e2")]
      ['A'] (by decide) (by decide)).1 "w" (by decide)
  · exact (C5_substitution_precedence [("A", "w")] [("A", "e"), ("B", "e2")]
      ['B'] (by decide) (by decide)).2.1 "e2" (by decide) (by decide)
  · exact (C5_substitution_precedence [("A", "w")] [("A", "e"), ("B", "e2")]
      ['A'] (by decide) (by decide)).2.2.1 "w" ['d'] (by decide) (by decide)
  · exact (C5_substitution_precedence [("A", "w")] [("A", "e"), ("B", "e2")]
      ['B'] (by decide) (by decide)).2.2.2.1 "e2" ['d'] (by decide) (by decide)
      (by decide)
  · exact (C5_substitution_precedence [("A", "w")] [("A", "e"), ("B", "e2")]
      ['C'] (by decide) (by decide)).2.2.2.2.1 ['d'] (by decide) (by decide)
      (by decide)
  · exact (C5_substitution_precedence [("A", "w")] [("A", "e"), ("B", "e2")]
      ['C'] (by decide) (by decide)).2.2.2.2.2.1 (by decide) (by decide)

/-! ## C3 -/

theorem assignV_lookup_none (r : Row) (k : String) (v : Value)
    (h : lookupV r k = none) : assignV r k v = r ++ [(k, v)] := by
  induction r with
  | nil => rfl
  | cons hd tl ih =>
      obtain ⟨k0, v0⟩ := hd
      by_cases h0 : k0 = k
      · rw [lookupV, if_pos h0] at h
        exact absurd h (by simp)
      · rw [lookupV, if_neg h0] at h
        simp [assignV, h0, ih h]

theorem lookupV_none_keys (l : List (String × Value)) (k : String)
    (h : lookupV l k = none) : ∀ kv ∈ l, kv.1 ≠ k := by
  induction l with
  | nil => simp
  | cons hd tl ih =>
      obtain ⟨k0, v0⟩ := hd
      by_cases h0 : k0 = k
      · rw [lookupV, if_pos h0] at h
        exact absurd h (by simp)
      · rw [lookupV, if_neg h0] at h
        intro kv hkv
        rcases List.mem_cons.mp hkv with rfl | hkv
        · exact h0
        · exact ih h kv hkv

theorem eraseV_lookup_none (r : Row) (k : String) (h : lookupV r k = none) :
    eraseV r k = r := by
  unfold eraseV
  exact List.filter_eq_self.mpr (fun kv hkv => by
    simpa using lookupV_none_keys r k h kv hkv)

theorem rowGet_assignV_self (r : Row) (k : String) (v : Value) :
    rowGet (assignV r k v) k = v := by
  unfold rowGet
  rw [lookupV_assignV_self]
  rfl

theorem eraseV_assignV_fresh (r : Row) (k : String) (v : Value)
    (h : lookupV r k = none) : eraseV (assignV r k v) k = r := by
  rw [assignV_lookup_none r k v h]
  unfold eraseV
  rw [List.filter_append]
  have h1 : List.filter (fun kv => kv.1 ≠ k) [(k, v)] = [] := by simp
  rw [h1, List.append_nil]
  exact eraseV_lookup_none r k h

/-- Order keys whose cells are all integers (a typed ordering column). -/
def allInt (xs : List Value) : Prop := ∀ x ∈ xs, ∃ n, x = Value.vInt n

theorem keyBefore_irrefl (d : Bool) : ∀ xs, keyBefore d xs xs = false
  | [] => rfl
  | x :: xs => by simp [keyBefore, keyBefore_irrefl d xs]

theorem keyBefore_total (d : Bool) : ∀ xs ys, xs.length = ys.length →
    allInt xs → allInt ys → xs ≠ ys →
    keyBefore d xs ys = true ∨ keyBefore d ys xs = true
  | [], [], _, _, _, hne => absurd rfl hne
  | [], y :: ys, hlen, _, _, _ => by simp at hlen
  | x :: xs, [], hlen, _, _, _ => by simp at hlen
  | x :: xs, y :: ys, hlen, hx, hy, hne => by
      by_cases hxy : x = y
      · subst hxy
        have hne' : xs ≠ ys := fun hh => hne (by rw [hh])
        have := keyBefore_total d xs ys (by simpa using hlen)
          (fun a ha => hx a (by simp [ha])) (fun a ha => hy a (by simp [ha])) hne'
        simpa [keyBefore] using this
      · obtain ⟨n, rfl⟩ := hx x (by simp)
        obtain ⟨m, rfl⟩ := hy y (by simp)
        have hnm : n ≠ m := fun hh => hxy (by rw [hh])
        simp only [keyBefore, if_neg hxy, if_neg (Ne.symm hxy), cellLt]
        cases d <;> simp <;> omega

theorem keyBefore_asymm (d : Bool) : ∀ xs ys, allInt xs → allInt ys →
    keyBefore d xs ys = true → keyBefore d ys xs = true → False
  | [], ys, _, _, h1, _ => by simp [keyBefore] at h1
  | x :: xs, [], _, _, h1, _ => by simp [keyBefore] at h1
  | x :: xs, y :: ys, hx, hy, h1, h2 => by
      by_cases hxy : x = y
      · subst hxy
        rw [keyBefore, if_pos rfl] at h1 h2
        exact keyBefore_asymm d xs ys (fun a ha => hx a (by simp [ha]))
          (fun a ha => hy a (by simp [ha])) h1 h2
      · obtain ⟨n, rfl⟩ := hx x (by simp)
        obtain ⟨m, rfl⟩ := hy y (by simp)
        rw [keyBefore, if_neg hxy] at h1
        rw [keyBefore, if_neg (Ne.symm hxy)] at h2
        cases d <;> simp [cellLt] at h1 h2 <;> omega

/-- C3 counterexample: with `subset=["id"], keep="last", order_by=["ts"]`
and the default `order_desc=True`, `DeduplicateRows` keeps the `ts=1` row,
not the `ts=2` row the claim promises: `keep="last"` flips the default
descending sort to ascending, and rank 1 of the ascending order is the
smallest `ts`. -/
theorem C3_counterexample :
    (DeduplicateRows.transform { subset := ["id"], keep := "last", order_by := ["ts"] }
        ⟨["id", "ts"], [[("id", Value.vInt 1), ("ts", Value.vInt 1)],
                        [("id", Value.vInt 1), ("ts", Value.vInt 2)]]⟩).rows =
      [[("id", Value.vInt 1), ("ts", Value.vInt 1)]] ∧
    [[("id", Value.vInt 1), ("ts", Value.vInt 1)]] ≠
      [[("id", Value.vInt 1), ("ts", Value.vInt 2)]] := by
  constructor
  · rfl
  · decide

theorem dedup_first_rows (subset ob : List String) (d : Bool) (df : DataFrame)
    (hob : ob ≠ []) :
    (DeduplicateRows.transform ⟨subset, "first", ob, d⟩ df).rows =
      ((df.rows.enum.map (fun ir => assignV ir.2 "_row_num"
          (.vInt (windowRowNumber (if subset.isEmpty then df.cols else subset) ob d
            df.rows ir.1 ir.2)))).filter
        (fun r => rowGet r "_row_num" = Value.vInt 1)).map
        (fun r => eraseV r "_row_num") := by
  simp [DeduplicateRows.transform, hob]

/-- C3 (amended): with ordering columns and `keep ∈ {first, last}`,
`DeduplicateRows` partitions by the subset (or all columns), ranks rows in
each partition by the ordering columns and keeps exactly the rank-1 row;
`keep = "last"` is implemented by reversing the sort direction, so with the
default `order_desc=True` it ranks ascending — on the two rows
`(id=1,ts=1)`, `(id=1,ts=2)` with `subset=["id"], keep="last",
order_by=["ts"]` exactly the `ts=1` row is retained (not `ts=2`). -/
theorem C3_dedup_rank_one (subset ob : List String) (d : Bool) (df : DataFrame) :
    (DeduplicateRows.transform ⟨subset, "last", ob, d⟩ df =
      DeduplicateRows.transform ⟨subset, "first", ob, (! d)⟩ df) ∧
    (∀ r : Row,
      ob ≠ [] →
      (∀ r' ∈ df.rows, lookupV r' "_row_num" = none) →
      (∀ r' ∈ df.rows, allInt (keyOf ob r')) →
      (∀ a b : Nat × Row, a ∈ df.rows.enum → b ∈ df.rows.enum → a.1 ≠ b.1 →
        keyOf (if subset.isEmpty then df.cols else subset) a.2 =
          keyOf (if subset.isEmpty then df.cols else subset) b.2 →
        keyOf ob a.2 ≠ keyOf ob b.2) →
      (r ∈ (DeduplicateRows.transform ⟨subset, "first", ob, d⟩ df).rows ↔
        (r ∈ df.rows ∧ ∀ r' ∈ df.rows,
          keyOf (if subset.isEmpty then df.cols else subset) r' =
            keyOf (if subset.isEmpty then df.cols else subset) r →
          r' ≠ r → keyBefore d (keyOf ob r) (keyOf ob r') = true))) ∧
    ((DeduplicateRows.transform { subset := ["id"], keep := "last", order_by := ["ts"] }
        ⟨["id", "ts"], [[("id", Value.vInt 1), ("ts", Value.vInt 1)],
                        [("id", Value.vInt 1), ("ts", Value.vInt 2)]]⟩).rows =
      [[("id", Value.vInt 1), ("ts", Value.vInt 1)]]) := by
  refine ⟨?_, ?_, by rfl⟩
  · simp [DeduplicateRows.transform]
  · intro r hob hfresh hints hdist
    constructor
    · intro hr
      rw [dedup_first_rows subset ob d df hob] at hr
      obtain ⟨r1, hr1, rfl⟩ := List.mem_map.mp hr
      obtain ⟨hr1m, hp⟩ := List.mem_filter.mp hr1
      obtain ⟨ir, hirm, rfl⟩ := List.mem_map.mp hr1m
      obtain ⟨i, r0⟩ := ir
      have hme := List.mem_enum hirm
      have hr0mem : r0 ∈ df.rows := hme.2 ▸ List.getElem_mem hme.1
      have herase : eraseV (assignV r0 "_row_num"
          (.vInt (windowRowNumber (if subset.isEmpty then df.cols else subset) ob d
            df.rows i r0))) "_row_num" = r0 :=
        eraseV_assignV_fresh _ _ _ (hfresh r0 hr0mem)
      rw [herase]
      have hp' : windowRowNumber (if subset.isEmpty then df.cols else subset) ob d
          df.rows i r0 = 1 := by
        have := of_decide_eq_true hp
        rw [rowGet_assignV_self] at this
        simpa using this
      have hcount : df.rows.enum.countP (fun jr =>
          decide (keyOf (if subset.isEmpty then df.cols else subset) jr.2 =
              keyOf (if subset.isEmpty then df.cols else subset) r0 ∧
            (keyBefore d (keyOf ob jr.2) (keyOf ob r0) = true ∨
              (keyOf ob jr.2 = keyOf ob r0 ∧ jr.1 < i)))) = 0 := by
        unfold windowRowNumber at hp'
        omega
      have hnone := List.countP_eq_zero.mp hcount
      refine ⟨hr0mem, ?_⟩
      intro r' hr' hsame hne
      obtain ⟨j, hj⟩ := List.getElem?_of_mem hr'
      have hjm : (j, r') ∈ df.rows.enum :=
        List.mk_mem_enum_iff_getElem?.mpr (by simp [hj])
      have hii : df.rows[i]? = some r0 := List.mk_mem_enum_iff_getElem?.mp hirm
      have hji : j ≠ i := by
        intro hh
        subst hh
        rw [hj] at hii
        exact hne (by simpa using hii)
      have hspec := hnone (j, r') hjm
      simp only [decide_eq_true_eq] at hspec
      push_neg at hspec
      have hnb := hspec hsame
      have hdiff := hdist (j, r') (i, r0) hjm hirm hji hsame
      have htot := keyBefore_total d (keyOf ob r0) (keyOf ob r')
        (by simp [keyOf]) (hints r0 hr0mem) (hints r' hr')
        (fun hh => hdiff hh.symm)
      rcases htot with h | h
      · exact h
      · exact absurd h hnb.1
    · rintro ⟨hrm, hall⟩
      rw [dedup_first_rows subset ob d df hob]
      obtain ⟨i, hi⟩ := List.getElem?_of_mem hrm
      have hienum : (i, r) ∈ df.rows.enum :=
        List.mk_mem_enum_iff_getElem?.mpr (by simp [hi])
      have hcount : df.rows.enum.countP (fun jr =>
          decide (keyOf (if subset.isEmpty then df.cols else subset) jr.2 =
              keyOf (if subset.isEmpty then df.cols else subset) r ∧
            (keyBefore d (keyOf ob jr.2) (keyOf ob r) = true ∨
              (keyOf ob jr.2 = keyOf ob r ∧ jr.1 < i)))) = 0 := by
        refine List.countP_eq_zero.mpr ?_
        rintro ⟨j, r'⟩ hjm hbadd
        have hbad := of_decide_eq_true hbadd
        obtain ⟨hsame, hbad⟩ := hbad
        have hme2 := List.mem_enum hjm
        have hr'm : r' ∈ df.rows := hme2.2 ▸ List.getElem_mem hme2.1
        by_cases hrr : r' = r
        · subst hrr
          by_cases hji : j = i
          · subst hji
            rcases hbad with hb | hb
            · rw [keyBefore_irrefl] at hb
              exact absurd hb (by simp)
            · exact absurd hb.2 (lt_irrefl j)
          · exact hdist (j, r') (i, r') hjm hienum hji hsame rfl
        · have hbef := hall r' hr'm hsame hrr
          rcases hbad with hb | hb
          · exact keyBefore_asymm d (keyOf ob r) (keyOf ob r')
              (hints r hrm) (hints r' hr'm) hbef hb
          · have : keyBefore d (keyOf ob r) (keyOf ob r) = true := hb.1 ▸ hbef
            rw [keyBefore_irrefl] at this
            exact absurd this (by simp)
      refine List.mem_map.mpr ⟨assignV r "_row_num"
        (.vInt (windowRowNumber (if subset.isEmpty then df.cols else subset) ob d
          df.rows i r)),
        List.mem_filter.mpr ⟨List.mem_map.mpr ⟨(i, r), hienum, rfl⟩, ?_⟩,
        eraseV_assignV_fresh _ _ _ (hfresh r hrm)⟩
      have : windowRowNumber (if subset.isEmpty then df.cols else subset) ob d
          df.rows i r = 1 := by
        unfold windowRowNumber
        rw [hcount]
      simp only [rowGet_assignV_self, this]
      rfl

/-- Witness for C3: on the two-row frame, `keep="first"` with the default
descending direction retains the `ts=2` row as the rank-1 row of its
partition. -/
theorem C3_witness :
    [("id", Value.vInt 1), ("ts", Value.vInt 2)] ∈
      (DeduplicateRows.transform ⟨["id"], "first", ["ts"], true⟩
        ⟨["id", "ts"], [[("id", Value.vInt 1), ("ts", Value.vInt 1)],
                        [("id", Value.vInt 1), ("ts", Value.vInt 2)]]⟩).rows := by
  have henum : (DataFrame.rows ⟨["id", "ts"],
      [[("id", Value.vInt 1), ("ts", Value.vInt 1)],
       [("id", Value.vInt 1), ("ts", Value.vInt 2)]]⟩).enum =
      [(0, [("id", Value.vInt 1), ("ts", Value.vInt 1)]),
       (1, [("id", Value.vInt 1), ("ts", Value.vInt 2)])] := rfl
  refine ((C3_dedup_rank_one ["id"] ["ts"] true
      ⟨["id", "ts"], [[("id", Value.vInt 1), ("ts", Value.vInt 1)],
                      [("id", Value.vInt 1), ("ts", Value.vInt 2)]]⟩).2.1
      [("id", Value.vInt 1), ("ts", Value.vInt 2)]
      (by decide)
      (by decide)
      ?_ ?_).mpr ⟨by simp, ?_⟩
  · intro r' hr'
    rcases List.mem_cons.mp hr' with rfl | hr'
    · intro x hx
      simp [keyOf, rowGet, lookupV] at hx
      exact ⟨1, hx⟩
    · rcases List.mem_cons.mp hr' with rfl | hr'
      · intro x hx
        simp [keyOf, rowGet, lookupV] at hx
        exact ⟨2, hx⟩
      · simp at hr'
  · intro a b ha hb hne hpk
    rw [henum] at ha hb
    rcases List.mem_cons.mp ha with rfl | ha <;>
      [skip; rcases List.mem_cons.mp ha with rfl | ha] <;>
      rcases List.mem_cons.mp hb with rfl | hb <;>
        first
          | exact absurd rfl hne
          | (try rcases List.mem_cons.mp hb with rfl | hb) <;>
              first
                | exact absurd rfl hne
                | decide
                | simp_all
  · intro r' hr' hsame hne
    rcases List.mem_cons.mp hr' with rfl | hr'
    · decide
    · rcases List.mem_cons.mp hr' with rfl | hr'
      · exact absurd rfl hne
      · simp at hr'

end Datalib
